import Mathlib

/-!
Formal model of the MedAssist patient/consultation data layer
(`database.py` together with the endpoint layer of `backend.py`).

The SQLAlchemy models and CRUD classes are embedded shallowly:

* table rows become Lean structures; a database state becomes lists of
  rows plus autoincrement counters and a logical clock standing for
  `datetime.utcnow` (the clock advances at every committed write);
* every CRUD method becomes a pure function from a `DB` state to a new
  `DB` state together with its Python return value; a raised exception
  becomes an `Except.error` and leaves the visible (committed) state
  unchanged, mirroring `autocommit=False` sessions whose uncommitted
  work is discarded instead of committed;
* the FastAPI endpoints of `backend.py` (pydantic validation, the
  duplicate-email pre-check, HTTP error mapping) become functions
  returning `Except ApiError`;
* constraint behaviour follows the default engine configured in
  `database.py` (SQLite, `sqlite:///./medassist.db`): the UNIQUE
  constraint on `patients.email` is enforced at commit time, while the
  declared FOREIGN KEY constraints are NOT enforced, because SQLite
  only enforces foreign keys after `PRAGMA foreign_keys=ON` and the
  engine in `database.py` never issues that pragma;
* Python floats are modelled as exact rationals; `round(x, 1)` is
  modelled as exact round-half-to-even at one decimal place (binary
  floating-point representation error is out of scope);
* `datetime.strptime(s, "%Y-%m-%d")` is modelled by `parseDateYMD`,
  following CPython's `_strptime` regexes for `%Y`, `%m`, `%d` and the
  `datetime` constructor's day-of-month validation.
-/

namespace MedAssist

/-! ### Calendar dates and `datetime.strptime(s, "%Y-%m-%d")` -/

structure Date where
  year : Nat
  month : Nat
  day : Nat
deriving DecidableEq, Repr

def isLeapYear (y : Nat) : Bool :=
  y % 4 == 0 && (y % 100 != 0 || y % 400 == 0)

def daysInMonth (y m : Nat) : Nat :=
  if m = 2 then (if isLeapYear y then 29 else 28)
  else if m = 4 ∨ m = 6 ∨ m = 9 ∨ m = 11 then 30
  else 31

/-- Split a character list at every `-`, exactly like `str.split("-")` /
`String.splitOn "-"` for the single-character separator. -/
def splitDash : List Char → List (List Char)
  | [] => [[]]
  | '-' :: rest => [] :: splitDash rest
  | c :: rest =>
    match splitDash rest with
    | [] => [[c]]
    | g :: gs => (c :: g) :: gs

def digitsToNat (l : List Char) : Nat :=
  l.foldl (fun a c => a * 10 + (c.toNat - 48)) 0

def allDigits (l : List Char) : Bool :=
  l.all Char.isDigit

/-- Model of `datetime.strptime(s, "%Y-%m-%d")`, returning `none` where
Python raises `ValueError`.  Per CPython's `_strptime` regexes, `%Y`
requires exactly four digits, `%m` one or two digits in 1..12, `%d` one
or two digits in 1..31; the `datetime` constructor then requires
`year ≥ 1` and the day to fit the (leap-year aware) month length. -/
def parseDateYMD (s : String) : Option Date :=
  match splitDash s.toList with
  | [ys, ms, ds] =>
    if allDigits ys ∧ ys.length = 4 ∧
       allDigits ms ∧ (ms.length = 1 ∨ ms.length = 2) ∧
       allDigits ds ∧ (ds.length = 1 ∨ ds.length = 2) then
      let y := digitsToNat ys
      let m := digitsToNat ms
      let d := digitsToNat ds
      if 1 ≤ y ∧ 1 ≤ m ∧ m ≤ 12 ∧ 1 ≤ d ∧ d ≤ daysInMonth y m then
        some ⟨y, m, d⟩
      else none
    else none
  | _ => none

/-! ### Derived-field engine: BMI (`Patient._calculate_bmi`, `_bmi_category`) -/

/-- Round-half-to-even to an integer, the tie-breaking rule of Python's
built-in `round`. -/
def roundHalfEven (x : ℚ) : ℤ :=
  let f := ⌊x⌋
  let r := x - (f : ℚ)
  if r < 1/2 then f
  else if 1/2 < r then f + 1
  else if f % 2 = 0 then f else f + 1

/-- Model of Python's `round(x, 1)` over exact rationals. -/
def pyRound1 (x : ℚ) : ℚ :=
  (roundHalfEven (x * 10) : ℚ) / 10

/-- `Patient._calculate_bmi`: the source guard is
`if self.weight and self.height and self.height > 0`, i.e. Python
truthiness (non-`None` and non-zero) on weight and height plus an
explicit positivity test on height. -/
def calculateBmi (weight height : Option ℚ) : Option ℚ :=
  match weight, height with
  | some w, some h =>
    if w ≠ 0 ∧ h ≠ 0 ∧ 0 < h then some (pyRound1 (w / (h / 100) ^ 2))
    else none
  | _, _ => none

/-- `_bmi_category` from `database.py`. -/
def bmiCategory (bmi : ℚ) : String :=
  if bmi < 37/2 then "Underweight"
  else if bmi < 25 then "Normal"
  else if bmi < 30 then "Overweight"
  else "Obese"

/-- The `bmi_category` entry of `Patient.to_dict`:
`_bmi_category(bmi) if bmi else None`, where `if bmi` is Python
truthiness (`bmi` must be non-`None` and non-zero). -/
def toDictBmiCategory (weight height : Option ℚ) : Option String :=
  match calculateBmi weight height with
  | some b => if b ≠ 0 then some (bmiCategory b) else none
  | none => none

/-! ### Table rows (the SQLAlchemy models of `database.py`)

Nullable columns become `Option`; `DateTime` timestamp columns filled by
`datetime.utcnow` become logical-clock values of type `Nat`;
`date_of_birth` (a parsed calendar date) becomes `Option Date`; `Float`
columns become `Option ℚ`. -/

structure PatientRow where
  id : Nat
  first_name : String
  last_name : String
  email : Option String := none
  phone : Option String := none
  date_of_birth : Option Date := none
  age : Option Nat := none
  gender : Option String := none
  weight : Option ℚ := none
  height : Option ℚ := none
  blood_type : Option String := none
  medical_history : Option String := none
  current_medications : Option String := none
  allergies : Option String := none
  family_history : Option String := none
  smoking_status : Option String := none
  alcohol_use : Option String := none
  created_at : Nat := 0
  updated_at : Nat := 0
  is_active : Bool := true
deriving DecidableEq, Repr

structure ConsultationRow where
  id : Nat
  patient_id : Nat
  consultation_date : Nat := 0
  chief_complaint : Option String := none
  duration_of_symptoms : Option String := none
  severity : Option String := none
  additional_notes : Option String := none
  ai_diagnosis : Option String := none
  differential_diagnoses : Option String := none
  urgency_level : Option String := none
  model_used : Option String := none
  model_provider : Option String := none
  web_search_enabled : Bool := false
  created_at : Nat := 0
deriving DecidableEq, Repr

structure SymptomRow where
  id : Nat
  consultation_id : Nat
  symptom_name : String
  category : Option String := none
  severity : Option String := none
  onset_date : Option Date := none
  description : Option String := none
  created_at : Nat := 0
deriving DecidableEq, Repr

structure PrescriptionRow where
  id : Nat
  consultation_id : Nat
  medication_name : String
  medication_type : Option String := none
  dosage : Option String := none
  frequency : Option String := none
  duration : Option String := none
  purpose : Option String := none
  instructions : Option String := none
  warnings : Option String := none
  is_otc : Bool := false
  created_at : Nat := 0
deriving DecidableEq, Repr

structure DiagnosticTestRow where
  id : Nat
  consultation_id : Nat
  test_name : String
  test_type : Option String := none
  priority : Option String := none
  reason : Option String := none
  created_at : Nat := 0
deriving DecidableEq, Repr

/-- The visible (committed) database state: one list per table, the
autoincrement counters, and the logical `utcnow` clock. -/
structure DB where
  patients : List PatientRow := []
  consultations : List ConsultationRow := []
  symptoms : List SymptomRow := []
  prescriptions : List PrescriptionRow := []
  tests : List DiagnosticTestRow := []
  next_patient_id : Nat := 1
  next_consultation_id : Nat := 1
  next_symptom_id : Nat := 1
  next_prescription_id : Nat := 1
  next_test_id : Nat := 1
  now : Nat := 0
deriving DecidableEq, Repr

/-- Replace the first element satisfying `pred` by its image under `f`
(the effect of loading one ORM row with `.first()` and mutating it). -/
def updateFirst (pred : α → Bool) (f : α → α) : List α → List α
  | [] => []
  | x :: xs => if pred x then f x :: xs else x :: updateFirst pred f xs

/-! ### SQL `LIKE` / `ilike` matching (for `PatientCRUD.search`)

`Column.ilike(q)` compares the lower-cased column against the
lower-cased pattern with SQL `LIKE` semantics, in which `%` matches any
(possibly empty) character sequence and `_` matches exactly one
character.  SQLite's `LIKE` is case-insensitive for ASCII letters,
which `Char.toLower` models. -/

def likeMatch : List Char → List Char → Bool
  | [], s => s.isEmpty
  | a :: p, s =>
    if a = '%' then s.tails.any (fun t => likeMatch p t)
    else
      match s with
      | [] => false
      | c :: s2 => (a = '_' || a == c) && likeMatch p s2

def lowerStr (s : String) : List Char :=
  s.toList.map Char.toLower

/-- One `Column.ilike(f"%{query}%")` test from `PatientCRUD.search`. -/
def ilikeContains (query : String) (field : String) : Bool :=
  likeMatch (lowerStr ("%" ++ query ++ "%")) (lowerStr field)

def optIlike (query : String) : Option String → Bool
  | some f => ilikeContains query f
  | none => false

/-- Modelled from the spec claim wording for search: `field` contains
the query as a case-insensitive substring.  Used only to compare the
source's `ilike`-based behaviour against the claim. -/
def containsCI (query field : String) : Bool :=
  decide (lowerStr query <:+: lowerStr field)

/-! ### Errors -/

/-- A database exception raised inside a CRUD call.  `uniqueViolation`
is the `IntegrityError` from the UNIQUE constraint on `patients.email`;
`simulated` stands for any other failure injected mid-transaction
(connection drop, constraint failure, cancellation). -/
inductive CrudError where
  | uniqueViolation : String → CrudError
  | simulated : CrudError
deriving DecidableEq, Repr

/-- The HTTP-level outcome classes produced by `backend.py`:
`validation` is a 400/422 client error (pydantic rejection or a caught
store exception), `conflict` the 400 duplicate-email rejection naming
the existing record, `notFound` a 404, `server` an uncaught exception
surfacing as a 500. -/
inductive ApiError where
  | validation : String → ApiError
  | conflict : String → ApiError
  | notFound : ApiError
  | server : ApiError
deriving DecidableEq, Repr

instance instDecidableEqExcept {ε α : Type} [DecidableEq ε] [DecidableEq α] :
    DecidableEq (Except ε α) := fun a b =>
  match a, b with
  | .ok x, .ok y => if h : x = y then .isTrue (by rw [h]) else .isFalse (by simp [h])
  | .error x, .error y => if h : x = y then .isTrue (by rw [h]) else .isFalse (by simp [h])
  | .ok _, .error _ => .isFalse (by simp)
  | .error _, .ok _ => .isFalse (by simp)

/-! ### `PatientCRUD` -/

/-- The keyword arguments reaching `PatientCRUD.create` from
`create_patient` (`data.model_dump(exclude_none=True)`): exactly the
`PatientCreate` fields, with `None`-valued fields absent (`none`) and
`date_of_birth` still in its string form. -/
structure PatientCreateFields where
  first_name : String
  last_name : String
  email : Option String := none
  phone : Option String := none
  date_of_birth : Option String := none
  age : Option Nat := none
  gender : Option String := none
  weight : Option ℚ := none
  height : Option ℚ := none
  blood_type : Option String := none
  medical_history : Option String := none
  current_medications : Option String := none
  allergies : Option String := none
  family_history : Option String := none
  smoking_status : Option String := none
  alcohol_use : Option String := none
deriving DecidableEq, Repr

/-- Does some patient row already carry this exact email?  (The UNIQUE
index on `patients.email` checks committed rows.) -/
def emailTaken (db : DB) (e : String) : Bool :=
  db.patients.any (fun p => p.email == some e)

namespace PatientCRUD

/-- `PatientCRUD.create`.  FIX 7 in the source parses a string
`date_of_birth` and *pops the key* when parsing fails (`except
ValueError: kwargs.pop(...)`), so a malformed date is dropped and the
insert proceeds.  The commit enforces the UNIQUE email constraint: on a
duplicate the commit raises and nothing becomes visible. -/
def create (db : DB) (f : PatientCreateFields) : DB × Except CrudError PatientRow :=
  let dob : Option Date :=
    match f.date_of_birth with
    | some s => parseDateYMD s
    | none => none
  if (match f.email with | some e => emailTaken db e | none => false) then
    (db, .error (.uniqueViolation "patients.email"))
  else
    let row : PatientRow :=
      { id := db.next_patient_id
        first_name := f.first_name
        last_name := f.last_name
        email := f.email
        phone := f.phone
        date_of_birth := dob
        age := f.age
        gender := f.gender
        weight := f.weight
        height := f.height
        blood_type := f.blood_type
        medical_history := f.medical_history
        current_medications := f.current_medications
        allergies := f.allergies
        family_history := f.family_history
        smoking_status := f.smoking_status
        alcohol_use := f.alcohol_use
        created_at := db.now
        updated_at := db.now
        is_active := true }
    ({ db with
        patients := db.patients ++ [row]
        next_patient_id := db.next_patient_id + 1
        now := db.now + 1 },
     .ok row)

/-- `PatientCRUD.get_by_id`: filters on `Patient.is_active == True`. -/
def get_by_id (db : DB) (patient_id : Nat) : Option PatientRow :=
  (db.patients.filter (fun p => p.id == patient_id && p.is_active)).head?

/-- `PatientCRUD.get_by_email`: no `is_active` filter. -/
def get_by_email (db : DB) (email : String) : Option PatientRow :=
  (db.patients.filter (fun p => p.email == some email)).head?

/-- `PatientCRUD.search`: active patients whose first name, last name,
email or phone matches `ilike('%' + query + '%')`. -/
def search (db : DB) (query : String) : List PatientRow :=
  db.patients.filter (fun p =>
    p.is_active &&
      (ilikeContains query p.first_name || ilikeContains query p.last_name ||
        optIlike query p.email || optIlike query p.phone))

/-- `PatientCRUD.delete`: soft delete.  Looks the row up *without* the
`is_active` filter, marks it inactive, refreshes `updated_at`, returns
`True`; returns `False` only when no row has this id. -/
def delete (db : DB) (patient_id : Nat) : DB × Bool :=
  match (db.patients.filter (fun p => p.id == patient_id)).head? with
  | none => (db, false)
  | some _ =>
    ({ db with
        patients := updateFirst (fun p => p.id == patient_id)
          (fun p => { p with is_active := false, updated_at := db.now }) db.patients
        now := db.now + 1 },
     true)

/-- `PatientCRUD.count`. -/
def count (db : DB) : Nat :=
  (db.patients.filter (fun p => p.is_active)).length

end PatientCRUD

/-- The `**kwargs` dict handed to `PatientCRUD.update`, restricted to
keys naming `Patient` attributes (keys that are not attributes fail the
`hasattr` test and are ignored; they carry no information, so they are
not represented).  The outer `Option` is key presence in the dict, the
inner `Option` is the Python value (`none` = the value `None`). -/
structure PatientUpdateKwargs where
  first_name : Option (Option String) := none
  last_name : Option (Option String) := none
  email : Option (Option String) := none
  phone : Option (Option String) := none
  date_of_birth : Option (Option String) := none
  age : Option (Option Nat) := none
  gender : Option (Option String) := none
  weight : Option (Option ℚ) := none
  height : Option (Option ℚ) := none
  blood_type : Option (Option String) := none
  medical_history : Option (Option String) := none
  current_medications : Option (Option String) := none
  allergies : Option (Option String) := none
  family_history : Option (Option String) := none
  smoking_status : Option (Option String) := none
  alcohol_use : Option (Option String) := none
  is_active : Option (Option Bool) := none
deriving DecidableEq, Repr

/-- `setattr` effect of the update loop on a non-nullable column:
applied only when the key is present with a non-`None` value. -/
def applyReq (k : Option (Option α)) (old : α) : α :=
  match k with
  | some (some v) => v
  | _ => old

/-- `setattr` effect of the update loop on a nullable column: a
non-`None` value overwrites, the value `None` is skipped, an absent key
leaves the column alone (so no column is ever cleared to `NULL`). -/
def applyOpt (k : Option (Option α)) (old : Option α) : Option α :=
  match k with
  | some (some v) => some v
  | _ => old

namespace PatientCRUD

/-- The row produced by the `setattr` loop of `PatientCRUD.update`,
given the kwargs after the date-of-birth fixup, with `updated_at`
refreshed to `utcnow`. -/
def applyUpdate (p : PatientRow) (k : PatientUpdateKwargs) (dob : Option (Option Date))
    (now : Nat) : PatientRow :=
  { p with
      first_name := applyReq k.first_name p.first_name
      last_name := applyReq k.last_name p.last_name
      email := applyOpt k.email p.email
      phone := applyOpt k.phone p.phone
      date_of_birth := applyOpt dob p.date_of_birth
      age := applyOpt k.age p.age
      gender := applyOpt k.gender p.gender
      weight := applyOpt k.weight p.weight
      height := applyOpt k.height p.height
      blood_type := applyOpt k.blood_type p.blood_type
      medical_history := applyOpt k.medical_history p.medical_history
      current_medications := applyOpt k.current_medications p.current_medications
      allergies := applyOpt k.allergies p.allergies
      family_history := applyOpt k.family_history p.family_history
      smoking_status := applyOpt k.smoking_status p.smoking_status
      alcohol_use := applyOpt k.alcohol_use p.alcohol_use
      updated_at := now
      is_active := applyReq k.is_active p.is_active }

/-- The FIX 7 date-of-birth fixup at the top of `PatientCRUD.update`:
a present string value is parsed, and the key is *popped* when parsing
fails (so the malformed date is silently dropped from the update); a
present `None` value stays and is skipped by the loop like any other
`None`. -/
def dobFix (k : PatientUpdateKwargs) : Option (Option Date) :=
  match k.date_of_birth with
  | some (some s) =>
    match parseDateYMD s with
    | some d => some (some d)
    | none => none
  | some none => some none
  | none => none

/-- `PatientCRUD.update`.  FIX 7 first parses a string `date_of_birth`
value, popping the key when parsing fails (the field is silently
dropped from the update).  The row is looked up *without* the
`is_active` filter; when no row matches, the method returns `None` and
writes nothing.  Otherwise the `setattr` loop applies every present,
non-`None` kwarg naming a `Patient` attribute, `updated_at` is
refreshed and the commit enforces the UNIQUE email constraint (on
violation the exception propagates and nothing becomes visible). -/
def update (db : DB) (patient_id : Nat) (k : PatientUpdateKwargs) :
    DB × Except CrudError (Option PatientRow) :=
  let dob : Option (Option Date) := dobFix k
  match (db.patients.filter (fun p => p.id == patient_id)).head? with
  | none => (db, .ok none)
  | some p =>
    let p2 := applyUpdate p k dob db.now
    if (match p2.email with
        | some e => db.patients.any (fun q => q.id != patient_id && q.email == some e)
        | none => false) then
      (db, .error (.uniqueViolation "patients.email"))
    else
      ({ db with
          patients := updateFirst (fun q => q.id == patient_id) (fun _ => p2) db.patients
          now := db.now + 1 },
       .ok (some p2))

end PatientCRUD

/-! ### `ConsultationCRUD` -/

/-- The `**kwargs` passed to `ConsultationCRUD.create` by `/diagnose`
(all the non-id `Consultation` columns it sets). -/
structure ConsultationKwargs where
  chief_complaint : Option String := none
  duration_of_symptoms : Option String := none
  severity : Option String := none
  additional_notes : Option String := none
  ai_diagnosis : Option String := none
  differential_diagnoses : Option String := none
  urgency_level : Option String := none
  model_used : Option String := none
  model_provider : Option String := none
  web_search_enabled : Bool := false
deriving DecidableEq, Repr

namespace ConsultationCRUD

/-- The symptom rows written by the loop of `ConsultationCRUD.create`:
one per supplied name, each with `severity` copied from
`kwargs.get("severity")`. -/
def symptomRowsFor (names : List String) (cid : Nat) (severity : Option String)
    (firstId now : Nat) : List SymptomRow :=
  names.enum.map (fun e =>
    { id := firstId + e.1
      consultation_id := cid
      symptom_name := e.2
      severity := severity
      created_at := now })

/-- `ConsultationCRUD.create`: add the consultation, `flush` to obtain
its id, add one `Symptom` per name, then `commit` — a single
transaction on the `autocommit=False` session.  `failAt = some k`
injects an exception at the `k`-th write step (flush, each symptom add,
or the commit itself); any such failure prevents the commit, so the
visible state is unchanged.  Note that no patient-existence check
occurs: the declared FOREIGN KEY on `consultations.patient_id` is not
enforced by the default SQLite engine of `database.py`, which never
issues `PRAGMA foreign_keys=ON`, so an insert with a dangling
`patient_id` succeeds. -/
def create (db : DB) (patient_id : Nat) (symptoms : List String)
    (kw : ConsultationKwargs) (failAt : Option Nat) :
    DB × Except CrudError ConsultationRow :=
  let steps := symptoms.length + 2
  let failed : Bool :=
    match failAt with
    | some k => decide (k < steps)
    | none => false
  if failed then
    (db, .error .simulated)
  else
    let c : ConsultationRow :=
      { id := db.next_consultation_id
        patient_id := patient_id
        consultation_date := db.now
        chief_complaint := kw.chief_complaint
        duration_of_symptoms := kw.duration_of_symptoms
        severity := kw.severity
        additional_notes := kw.additional_notes
        ai_diagnosis := kw.ai_diagnosis
        differential_diagnoses := kw.differential_diagnoses
        urgency_level := kw.urgency_level
        model_used := kw.model_used
        model_provider := kw.model_provider
        web_search_enabled := kw.web_search_enabled
        created_at := db.now }
    ({ db with
        consultations := db.consultations ++ [c]
        symptoms := db.symptoms ++ symptomRowsFor symptoms c.id kw.severity db.next_symptom_id db.now
        next_consultation_id := db.next_consultation_id + 1
        next_symptom_id := db.next_symptom_id + symptoms.length
        now := db.now + 1 },
     .ok c)

/-- `ConsultationCRUD.get_by_id`: no filter beyond the id. -/
def get_by_id (db : DB) (consultation_id : Nat) : Option ConsultationRow :=
  (db.consultations.filter (fun c => c.id == consultation_id)).head?

/-- Descending insertion by `consultation_date`, modelling
`order_by(Consultation.consultation_date.desc())`. -/
def insertByDateDesc (c : ConsultationRow) : List ConsultationRow → List ConsultationRow
  | [] => [c]
  | x :: xs =>
    if c.consultation_date ≤ x.consultation_date then x :: insertByDateDesc c xs
    else c :: x :: xs

def sortByDateDesc (l : List ConsultationRow) : List ConsultationRow :=
  l.foldr insertByDateDesc []

/-- `ConsultationCRUD.get_by_patient`. -/
def get_by_patient (db : DB) (patient_id : Nat) (skip : Nat := 0) (limit : Nat := 50) :
    List ConsultationRow :=
  (((sortByDateDesc (db.consultations.filter (fun c => c.patient_id == patient_id))).drop skip).take limit)

/-- `ConsultationCRUD.get_recent`. -/
def get_recent (db : DB) (limit : Nat := 20) : List ConsultationRow :=
  (sortByDateDesc db.consultations).take limit

/-- `ConsultationCRUD.count_by_patient`. -/
def count_by_patient (db : DB) (patient_id : Nat) : Nat :=
  (db.consultations.filter (fun c => c.patient_id == patient_id)).length

/-- `ConsultationCRUD.add_prescription` (no referential check: the
foreign key on `prescriptions.consultation_id` is likewise not
enforced by the default engine). -/
def add_prescription (db : DB) (consultation_id : Nat) (medication_name : String) :
    DB × PrescriptionRow :=
  let row : PrescriptionRow :=
    { id := db.next_prescription_id
      consultation_id := consultation_id
      medication_name := medication_name
      created_at := db.now }
  ({ db with
      prescriptions := db.prescriptions ++ [row]
      next_prescription_id := db.next_prescription_id + 1
      now := db.now + 1 },
   row)

/-- `ConsultationCRUD.add_diagnostic_test`. -/
def add_diagnostic_test (db : DB) (consultation_id : Nat) (test_name : String) :
    DB × DiagnosticTestRow :=
  let row : DiagnosticTestRow :=
    { id := db.next_test_id
      consultation_id := consultation_id
      test_name := test_name
      created_at := db.now }
  ({ db with
      tests := db.tests ++ [row]
      next_test_id := db.next_test_id + 1
      now := db.now + 1 },
   row)

/-- `ConsultationCRUD.count`. -/
def count (db : DB) : Nat :=
  db.consultations.length

end ConsultationCRUD

/-! ### The endpoint layer (`backend.py`)

Pydantic parses and validates the request body before the handler runs;
a failed validation is a client error (HTTP 422) and the handler — and
hence the store — is never reached. -/

namespace Api

/-- The pydantic validation of `PatientCreate`: `first_name` and
`last_name` need `min_length=1`; `validate_dob` runs
`datetime.strptime(v, "%Y-%m-%d")` on a present `date_of_birth`;
`age` has `ge=0, le=150` (non-negativity is inherent to `Nat` here),
`weight` `ge=0, le=600`, `height` `ge=0, le=300`. -/
def patientCreateValid (f : PatientCreateFields) : Bool :=
  f.first_name.length ≥ 1 && f.last_name.length ≥ 1 &&
    (match f.date_of_birth with
     | some s => (parseDateYMD s).isSome
     | none => true) &&
    (match f.age with | some a => decide (a ≤ 150) | none => true) &&
    (match f.weight with | some w => decide (0 ≤ w ∧ w ≤ 600) | none => true) &&
    (match f.height with | some h => decide (0 ≤ h ∧ h ≤ 300) | none => true)

/-- `POST /patients` (`create_patient`): after pydantic validation, the
handler pre-checks the email for duplicates (`if data.email:` — Python
truthiness, so the empty string skips the pre-check) and answers 400
naming the existing patient; then it calls `PatientCRUD.create`,
mapping any raised exception to a 400 client error. -/
def create_patient (db : DB) (data : PatientCreateFields) : DB × Except ApiError PatientRow :=
  if !patientCreateValid data then
    (db, .error (.validation "422 request validation failed"))
  else
    let precheckHit : Bool :=
      match data.email with
      | some e => e != "" && (PatientCRUD.get_by_email db e).isSome
      | none => false
    if precheckHit then
      (db, .error (.conflict "email already registered"))
    else
      match PatientCRUD.create db data with
      | (db2, .ok p) => (db2, .ok p)
      | (db2, .error _) => (db2, .error (.validation "400 store rejected create"))

/-- `GET /patients/{id}` (`get_patient`): 404 when `get_by_id` (which
filters inactive rows out) finds nothing. -/
def get_patient (db : DB) (patient_id : Nat) : Except ApiError PatientRow :=
  match PatientCRUD.get_by_id db patient_id with
  | some p => .ok p
  | none => .error .notFound

/-- The pydantic `PatientUpdate` payload after
`model_dump(exclude_none=True)`: all fields optional, `first_name`,
`last_name` and `is_active` not accepted. -/
structure PatientUpdatePayload where
  email : Option String := none
  phone : Option String := none
  date_of_birth : Option String := none
  age : Option Nat := none
  gender : Option String := none
  weight : Option ℚ := none
  height : Option ℚ := none
  blood_type : Option String := none
  medical_history : Option String := none
  current_medications : Option String := none
  allergies : Option String := none
  family_history : Option String := none
  smoking_status : Option String := none
  alcohol_use : Option String := none
deriving DecidableEq, Repr

/-- Validation of `PatientUpdate` (same `validate_dob` and ranges as on
create). -/
def patientUpdateValid (d : PatientUpdatePayload) : Bool :=
  (match d.date_of_birth with
   | some s => (parseDateYMD s).isSome
   | none => true) &&
    (match d.age with | some a => decide (a ≤ 150) | none => true) &&
    (match d.weight with | some w => decide (0 ≤ w ∧ w ≤ 600) | none => true) &&
    (match d.height with | some h => decide (0 ≤ h ∧ h ≤ 300) | none => true)

/-- The kwargs dict `data.model_dump(exclude_none=True)` builds from an
update payload: every present field arrives with a non-`None` value. -/
def toKwargs (d : PatientUpdatePayload) : PatientUpdateKwargs :=
  { email := d.email.map some
    phone := d.phone.map some
    date_of_birth := d.date_of_birth.map some
    age := d.age.map some
    gender := d.gender.map some
    weight := d.weight.map some
    height := d.height.map some
    blood_type := d.blood_type.map some
    medical_history := d.medical_history.map some
    current_medications := d.current_medications.map some
    allergies := d.allergies.map some
    family_history := d.family_history.map some
    smoking_status := d.smoking_status.map some
    alcohol_use := d.alcohol_use.map some }

/-- `PUT /patients/{id}` (`update_patient`): pydantic validation, then
`PatientCRUD.update`; `None` result → 404; an exception raised by the
store (the UNIQUE email constraint) is not caught in this handler and
surfaces as a 500. -/
def update_patient (db : DB) (patient_id : Nat) (data : PatientUpdatePayload) :
    DB × Except ApiError PatientRow :=
  if !patientUpdateValid data then
    (db, .error (.validation "422 request validation failed"))
  else
    match PatientCRUD.update db patient_id (toKwargs data) with
    | (db2, .ok (some p)) => (db2, .ok p)
    | (db2, .ok none) => (db2, .error .notFound)
    | (db2, .error _) => (db2, .error .server)

/-- `DELETE /patients/{id}` (`delete_patient`): 404 exactly when
`PatientCRUD.delete` returns `False`. -/
def delete_patient (db : DB) (patient_id : Nat) : DB × Except ApiError Unit :=
  match PatientCRUD.delete db patient_id with
  | (db2, true) => (db2, .ok ())
  | (db2, false) => (db2, .error .notFound)

/-- `GET /patients/search` (`search_patients`): the query parameter is
declared `Query(..., min_length=1)`, so the empty string is rejected
with a 422 client error before the handler runs; otherwise the handler
returns `PatientCRUD.search`. -/
def search_patients (db : DB) (q : String) : Except ApiError (List PatientRow) :=
  if q.length < 1 then .error (.validation "422 q shorter than min_length=1")
  else .ok (PatientCRUD.search db q)

end Api

/-! ### Reachable states

Closure of the empty store under every state-changing operation of the
data layer (the endpoints call exactly these, each endpoint pre-check
only restricting the calls further). -/

inductive Reachable : DB → Prop
  | empty : Reachable {}
  | createPatient (db : DB) (f : PatientCreateFields) :
      Reachable db → Reachable (PatientCRUD.create db f).1
  | updatePatient (db : DB) (pid : Nat) (k : PatientUpdateKwargs) :
      Reachable db → Reachable (PatientCRUD.update db pid k).1
  | deletePatient (db : DB) (pid : Nat) :
      Reachable db → Reachable (PatientCRUD.delete db pid).1
  | createConsultation (db : DB) (pid : Nat) (names : List String)
      (kw : ConsultationKwargs) (failAt : Option Nat) :
      Reachable db → Reachable (ConsultationCRUD.create db pid names kw failAt).1
  | addPrescription (db : DB) (cid : Nat) (m : String) :
      Reachable db → Reachable (ConsultationCRUD.add_prescription db cid m).1
  | addDiagnosticTest (db : DB) (cid : Nat) (t : String) :
      Reachable db → Reachable (ConsultationCRUD.add_diagnostic_test db cid t).1

/-- The structural invariant of the patients table: ids are pairwise
distinct and below the autoincrement counter, and no two rows carry the
same present email (the UNIQUE index). -/
def PatientsOk (db : DB) : Prop :=
  db.patients.Pairwise (fun p q => p.id ≠ q.id) ∧
  (∀ p ∈ db.patients, p.id < db.next_patient_id) ∧
  db.patients.Pairwise (fun p q => ∀ e : String, p.email = some e → q.email ≠ some e)

/-! ### Concrete scenario states used by witnesses and counterexamples -/

def c1Fields : PatientCreateFields :=
  { first_name := "Ann", last_name := "Bee", date_of_birth := some "2023/01/01" }

def c1Row : PatientRow :=
  { id := 1, first_name := "Ann", last_name := "Bee" }

def c2Db : DB :=
  (PatientCRUD.create {} { first_name := "Cee", last_name := "Dee" }).1

def c3Row : ConsultationRow :=
  { id := 1, patient_id := 999 }

def c4Db : DB :=
  (PatientCRUD.create {} { first_name := "Ola", last_name := "Pim", email := some "ola@x" }).1

def c5Db : DB :=
  (PatientCRUD.create {} { first_name := "Eve", last_name := "Fox" }).1

def c6Db : DB :=
  (ConsultationCRUD.create
    (PatientCRUD.create {} { first_name := "Gil", last_name := "Hay" }).1
    1 ["fever"] { severity := some "Mild" } none).1

def c7Db : DB :=
  (PatientCRUD.create
    (PatientCRUD.create {} { first_name := "Hal", last_name := "Orr", email := some "a@x" }).1
    { first_name := "Ivy", last_name := "Pym", email := some "b@x" }).1

def c7Payload : Api.PatientUpdatePayload :=
  { email := some "a@x" }

def c7wDb : DB :=
  (PatientCRUD.create {} { first_name := "Jan", last_name := "Kim", email := some "j@x" }).1

def c7wPayload : Api.PatientUpdatePayload :=
  { phone := some "0123", age := some 33 }

def c8Patient : PatientRow :=
  { id := 1, first_name := "Kim", last_name := "Lee", weight := some 70, height := some 170 }

def c9Db : DB :=
  (PatientCRUD.create {} { first_name := "abc", last_name := "zzz" }).1

def c9Row : PatientRow :=
  { id := 1, first_name := "abc", last_name := "zzz" }

def c9wDb : DB :=
  (PatientCRUD.create
    (PatientCRUD.create {} { first_name := "John", last_name := "Doe" }).1
    { first_name := "Alice", last_name := "Smith", email := some "ajohnson@x.com" }).1

def c10Db : DB :=
  (PatientCRUD.create {}
    { first_name := "Mia", last_name := "Noe", date_of_birth := some "2000-01-15" }).1

def c10K : PatientUpdateKwargs :=
  { date_of_birth := some (some "2000-13-01") }

/-- The row produced by a successful endpoint-level partial update:
the pydantic payload converted to kwargs, the FIX 7 date fixup applied,
then the `setattr` loop. -/
def updatedRowVia (p : PatientRow) (d : Api.PatientUpdatePayload) (now : Nat) : PatientRow :=
  PatientCRUD.applyUpdate p (Api.toKwargs d) (PatientCRUD.dobFix (Api.toKwargs d)) now

def c7wP : PatientRow :=
  { id := 1, first_name := "Jan", last_name := "Kim", email := some "j@x" }

def c10wDb : DB :=
  (PatientCRUD.delete
    (PatientCRUD.create {} { first_name := "Rex", last_name := "Sol", phone := some "555" }).1
    1).1

def c10wK : PatientUpdateKwargs :=
  { is_active := some (some true), phone := some none }

def c10wP : PatientRow :=
  { id := 1, first_name := "Rex", last_name := "Sol", phone := some "555", updated_at := 1,
    is_active := false }

def c9wJohn : PatientRow :=
  { id := 1, first_name := "John", last_name := "Doe" }

def c9wAlice : PatientRow :=
  { id := 2, first_name := "Alice", last_name := "Smith", email := some "ajohnson@x.com",
    created_at := 1, updated_at := 1 }

def c5RowAfter : PatientRow :=
  { id := 1, first_name := "Eve", last_name := "Fox", updated_at := 2, is_active := false }

def c10RowAfter : PatientRow :=
  { id := 1, first_name := "Mia", last_name := "Noe", date_of_birth := some ⟨2000, 1, 15⟩,
    updated_at := 1 }

/-! ## Theorems -/

/-! ### Generic lemmas about `updateFirst` and filtered lookups -/

theorem mem_updateFirst {α : Type} {pred : α → Bool} {f : α → α} {l : List α} {b : α}
    (hb : b ∈ updateFirst pred f l) : ∃ x ∈ l, b = x ∨ b = f x := by
  induction l with
  | nil => cases hb
  | cons a l ih =>
    by_cases ha : pred a
    · simp only [updateFirst, ha, if_true, List.mem_cons] at hb
      rcases hb with rfl | hb
      · exact ⟨a, by simp, Or.inr rfl⟩
      · exact ⟨b, by simp [hb], Or.inl rfl⟩
    · simp only [updateFirst, ha, if_false, Bool.false_eq_true, List.mem_cons] at hb
      rcases hb with rfl | hb
      · exact ⟨b, by simp, Or.inl rfl⟩
      · obtain ⟨x, hx, h⟩ := ih hb
        exact ⟨x, by simp [hx], h⟩

theorem updateFirst_forall2 {α : Type} (pred : α → Bool) (f : α → α) (l : List α) :
    List.Forall₂ (fun a b => b = a ∨ (pred a = true ∧ b = f a)) l (updateFirst pred f l) := by
  induction l with
  | nil => exact .nil
  | cons a l ih =>
    by_cases ha : pred a
    · simp only [updateFirst, ha, if_true]
      refine .cons (Or.inr ⟨ha, rfl⟩) ?_
      rw [List.forall₂_same]
      intro x _
      exact Or.inl rfl
    · simp only [updateFirst, ha, if_false]
      exact .cons (Or.inl rfl) ih

theorem updateFirst_append {α : Type} {pred : α → Bool} {f : α → α} {l1 : List α} (x : α)
    (l2 : List α) (h1 : ∀ y ∈ l1, pred y = false) (hx : pred x = true) :
    updateFirst pred f (l1 ++ x :: l2) = l1 ++ f x :: l2 := by
  induction l1 with
  | nil => simp [updateFirst, hx]
  | cons a l1 ih =>
    have ha := h1 a (by simp)
    simp [updateFirst, ha, ih (fun y hy => h1 y (by simp [hy]))]

theorem pairwise_updateFirst {α : Type} {R : α → α → Prop} (pred : α → Bool) (f : α → α)
    (hl : ∀ x y, R x y → R (f x) y) (hr : ∀ x y, R x y → R x (f y))
    {l : List α} (h : l.Pairwise R) : (updateFirst pred f l).Pairwise R := by
  induction l with
  | nil => exact .nil
  | cons a l ih =>
    cases h with
    | cons ha ht =>
      by_cases hp : pred a
      · simp only [updateFirst, hp, if_true]
        exact .cons (fun b hb => hl _ _ (ha b hb)) ht
      · simp only [updateFirst, hp, if_false]
        refine .cons ?_ (ih ht)
        intro b hb
        obtain ⟨x, hx, hbx⟩ := mem_updateFirst hb
        rcases hbx with rfl | rfl
        · exact ha _ hx
        · exact hr _ _ (ha x hx)

theorem head_filter_decomp {α : Type} {pred : α → Bool} {l : List α} {x : α}
    (h : (l.filter pred).head? = some x) :
    ∃ l1 l2, l = l1 ++ x :: l2 ∧ (∀ y ∈ l1, pred y = false) ∧ pred x = true := by
  induction l with
  | nil => simp at h
  | cons a l ih =>
    by_cases ha : pred a
    · rw [List.filter_cons_of_pos ha] at h
      simp only [List.head?_cons, Option.some.injEq] at h
      subst h
      exact ⟨[], l, rfl, by simp, ha⟩
    · rw [List.filter_cons_of_neg ha] at h
      obtain ⟨l1, l2, rfl, h1, hx⟩ := ih h
      refine ⟨a :: l1, l2, rfl, ?_, hx⟩
      intro y hy
      rcases List.mem_cons.mp hy with rfl | hy
      · simpa using ha
      · exact h1 y hy

theorem filter_head_isSome_of_mem {α : Type} (pred : α → Bool) {l : List α} {x : α}
    (hx : x ∈ l) (hpx : pred x = true) :
    ∃ y, (l.filter pred).head? = some y := by
  have hmem : x ∈ l.filter pred := List.mem_filter.mpr ⟨hx, hpx⟩
  cases hfe : (l.filter pred).head? with
  | some y => exact ⟨y, rfl⟩
  | none =>
    rw [List.head?_eq_none_iff] at hfe
    rw [hfe] at hmem
    cases hmem

/-! ### The effect of one `setattr`-loop slot, in closed form -/

theorem applyReq_eq {α : Type} (k : Option (Option α)) (old : α) :
    applyReq k old = (k.bind id).getD old := by
  match k with
  | some (some v) => rfl
  | some none => rfl
  | none => rfl

theorem applyOpt_eq {α : Type} (k : Option (Option α)) (old : Option α) :
    applyOpt k old = (k.bind id).or old := by
  match k with
  | some (some v) => rfl
  | some none => rfl
  | none => rfl

theorem applyOpt_map_some {α : Type} (o : Option α) (old : Option α) :
    applyOpt (o.map some) old = o.or old := by
  cases o <;> rfl

/-- `PatientCRUD.update` on a found row whose resulting email does not
collide with any other row: the commit succeeds and replaces exactly
the first row with the given id by the `setattr`-loop image, returning
it. -/
theorem update_found_characterization (db : DB) (pid : Nat) (k : PatientUpdateKwargs)
    (p : PatientRow) (hp : (db.patients.filter (fun q => q.id == pid)).head? = some p)
    (hemail : ∀ e, applyOpt k.email p.email = some e →
        ∀ q ∈ db.patients, q.id ≠ pid → q.email ≠ some e) :
    PatientCRUD.update db pid k =
      ({ db with
          patients := updateFirst (fun q => q.id == pid)
            (fun _ => PatientCRUD.applyUpdate p k (PatientCRUD.dobFix k) db.now) db.patients
          now := db.now + 1 },
       .ok (some (PatientCRUD.applyUpdate p k (PatientCRUD.dobFix k) db.now))) := by
  have hcheck : (match (PatientCRUD.applyUpdate p k (PatientCRUD.dobFix k) db.now).email with
      | some e => db.patients.any (fun q => q.id != pid && q.email == some e)
      | none => false) = false := by
    cases he : (PatientCRUD.applyUpdate p k (PatientCRUD.dobFix k) db.now).email with
    | none => rfl
    | some e =>
      have hem : applyOpt k.email p.email = some e := he
      rw [List.any_eq_false]
      intro q hq
      intro hcon
      rw [Bool.and_eq_true] at hcon
      have hne : q.id ≠ pid := by simpa using hcon.1
      have heq : q.email = some e := by simpa using hcon.2
      exact hemail e hem q hq hne heq
  simp only [PatientCRUD.update, hp]
  rw [hcheck]
  simp

/-- Claim C1, counterexample: handed the malformed birth-date string
"2023/01/01" directly, `PatientCRUD.create` does not fail — it silently
drops the date (`kwargs.pop`) and persists the remaining record in the
committed state, contrary to the claim that the store fails with a
client error and persists nothing. -/
theorem C1_counterexample :
    (PatientCRUD.create {} c1Fields).2 = .ok c1Row ∧
    (PatientCRUD.create {} c1Fields).1.patients = [c1Row] ∧
    c1Row.date_of_birth = none := by
  decide

/-- Claim C1, amended: patient creation through the API boundary
(`create_patient`) rejects a birth-date string not in YYYY-MM-DD form
with a client error (pydantic validation, HTTP 422) and persists
nothing; it is only `PatientCRUD.create` itself that would drop the
malformed date. -/
theorem C1_create_endpoint_rejects_malformed_dob (db : DB) (f : PatientCreateFields)
    (s : String) (h1 : f.date_of_birth = some s) (h2 : parseDateYMD s = none) :
    Api.create_patient db f = (db, .error (.validation "422 request validation failed")) := by
  have hvalid : Api.patientCreateValid f = false := by
    simp [Api.patientCreateValid, h1, h2]
  simp [Api.create_patient, hvalid]

/-- Witness for C1 at a concrete malformed input. -/
theorem C1_witness :
    c1Fields.date_of_birth = some "2023/01/01" ∧ parseDateYMD "2023/01/01" = none ∧
    Api.create_patient {} c1Fields =
      ({}, .error (.validation "422 request validation failed")) :=
  ⟨rfl, by decide, C1_create_endpoint_rejects_malformed_dob {} c1Fields "2023/01/01" rfl (by decide)⟩

/-- Claim C3 (code bug): on the default SQLite engine of `database.py`
the declared FOREIGN KEY `consultations.patient_id → patients.id` is
not enforced (no `PRAGMA foreign_keys=ON` is ever issued), so creating
a consultation whose `patient_id` references no patient row at all
succeeds and persists an orphan consultation and its symptom row,
instead of failing with a referential error. -/
theorem C3_dangling_fk_insert_succeeds :
    (ConsultationCRUD.create {} 999 ["cough"] {} none).1.patients = [] ∧
    (ConsultationCRUD.create {} 999 ["cough"] {} none).2 = .ok c3Row ∧
    c3Row.patient_id = 999 ∧
    (ConsultationCRUD.create {} 999 ["cough"] {} none).1.consultations = [c3Row] ∧
    ((ConsultationCRUD.create {} 999 ["cough"] {} none).1.symptoms.map
      (fun r => r.symptom_name)) = ["cough"] := by
  decide

/-- The names of the symptom rows written for a consultation are
exactly the supplied names, in order (one row per name). -/
theorem symptomRowsFor_map_name (names : List String) (cid : Nat) (sev : Option String)
    (firstId now : Nat) :
    (ConsultationCRUD.symptomRowsFor names cid sev firstId now).map
      (fun r => r.symptom_name) = names := by
  simp [ConsultationCRUD.symptomRowsFor, List.map_map, Function.comp]
  exact List.enum_map_snd names

/-- Every symptom row written for a consultation references that
consultation's id. -/
theorem symptomRowsFor_cid (names : List String) (cid : Nat) (sev : Option String)
    (firstId now : Nat) :
    ∀ r ∈ ConsultationCRUD.symptomRowsFor names cid sev firstId now,
      r.consultation_id = cid := by
  intro r hr
  simp [ConsultationCRUD.symptomRowsFor] at hr
  obtain ⟨a, b, hab, rfl⟩ := hr
  rfl

/-- Claim C2: `create_consultation` is all-or-nothing.  On success the
committed state contains the consultation row plus exactly one symptom
row per supplied name (all referencing the new consultation); on any
failure injected at any write step before or at the commit, the
committed state is exactly the pre-call state; an empty name list is
permitted and writes only the consultation row. -/
theorem C2_consultation_all_or_nothing (db : DB) (pid : Nat) (names : List String)
    (kw : ConsultationKwargs) (failAt : Option Nat) :
    (∀ c, (ConsultationCRUD.create db pid names kw failAt).2 = .ok c →
        (ConsultationCRUD.create db pid names kw failAt).1.consultations
            = db.consultations ++ [c] ∧
          (ConsultationCRUD.create db pid names kw failAt).1.symptoms
            = db.symptoms ++
                ConsultationCRUD.symptomRowsFor names c.id kw.severity db.next_symptom_id db.now ∧
          (ConsultationCRUD.symptomRowsFor names c.id kw.severity db.next_symptom_id db.now).map
              (fun r => r.symptom_name) = names ∧
          ∀ r ∈ ConsultationCRUD.symptomRowsFor names c.id kw.severity db.next_symptom_id db.now,
            r.consultation_id = c.id) ∧
    (∀ e, (ConsultationCRUD.create db pid names kw failAt).2 = .error e →
        (ConsultationCRUD.create db pid names kw failAt).1 = db) ∧
    (names = [] → failAt = none →
        (ConsultationCRUD.create db pid names kw failAt).1.symptoms = db.symptoms ∧
          ∃ c, (ConsultationCRUD.create db pid names kw failAt).2 = .ok c) := by
  rcases failAt with _ | k
  · refine ⟨?_, ?_, ?_⟩
    · intro c hc
      simp only [ConsultationCRUD.create] at hc ⊢
      injection hc with hc2
      subst hc2
      exact ⟨rfl, rfl, symptomRowsFor_map_name _ _ _ _ _, symptomRowsFor_cid _ _ _ _ _⟩
    · intro e he
      simp only [ConsultationCRUD.create] at he
      cases he
    · intro h1 _
      subst h1
      simp [ConsultationCRUD.create, ConsultationCRUD.symptomRowsFor]
  · by_cases hk : k < names.length + 2
    · refine ⟨?_, ?_, ?_⟩
      · intro c hc
        simp [ConsultationCRUD.create, hk] at hc
      · intro e _
        simp [ConsultationCRUD.create, hk]
      · intro _ h2
        cases h2
    · refine ⟨?_, ?_, ?_⟩
      · intro c hc
        simp only [ConsultationCRUD.create, hk] at hc ⊢
        simp only [decide_eq_true_eq, if_neg hk] at hc ⊢
        injection hc with hc2
        subst hc2
        exact ⟨rfl, rfl, symptomRowsFor_map_name _ _ _ _ _, symptomRowsFor_cid _ _ _ _ _⟩
      · intro e he
        simp only [ConsultationCRUD.create] at he
        simp only [decide_eq_true_eq, if_neg hk] at he
        cases he
      · intro _ h2
        cases h2

/-- Witness for C2: creating a consultation with 3 symptom names and a
simulated failure at write step 1 leaves the store exactly as it was
(zero rows for that consultation). -/
theorem C2_witness :
    (ConsultationCRUD.create c2Db 1 ["fever", "cough", "chills"] {} (some 1)).2
        = .error .simulated ∧
    (ConsultationCRUD.create c2Db 1 ["fever", "cough", "chills"] {} (some 1)).1 = c2Db :=
  ⟨by decide,
   (C2_consultation_all_or_nothing c2Db 1 ["fever", "cough", "chills"] {} (some 1)).2.1
     .simulated (by decide)⟩

/-! ### The email-uniqueness invariant (claim C4) -/

theorem patientsOk_create (db : DB) (f : PatientCreateFields) (h : PatientsOk db) :
    PatientsOk (PatientCRUD.create db f).1 := by
  obtain ⟨hid, hbound, hem⟩ := h
  by_cases htaken : (match f.email with | some e => emailTaken db e | none => false) = true
  · simp only [PatientCRUD.create, htaken, if_true]
    exact ⟨hid, hbound, hem⟩
  · rw [Bool.not_eq_true] at htaken
    simp only [PatientCRUD.create, htaken, Bool.false_eq_true, if_false]
    refine ⟨?_, ?_, ?_⟩
    · rw [List.pairwise_append]
      refine ⟨hid, List.pairwise_singleton _ _, ?_⟩
      intro a ha b hb
      rw [List.mem_singleton] at hb
      subst hb
      exact Nat.ne_of_lt (hbound a ha)
    · intro p hp
      rw [List.mem_append] at hp
      rcases hp with hp | hp
      · exact Nat.lt_succ_of_lt (hbound p hp)
      · rw [List.mem_singleton] at hp
        subst hp
        exact Nat.lt_succ_self _
    · rw [List.pairwise_append]
      refine ⟨hem, List.pairwise_singleton _ _, ?_⟩
      intro a ha b hb
      rw [List.mem_singleton] at hb
      subst hb
      intro e hae hbe
      have hfe : f.email = some e := hbe
      rw [hfe] at htaken
      have htaken2 : emailTaken db e = false := htaken
      have htrue : emailTaken db e = true := by
        rw [emailTaken, List.any_eq_true]
        exact ⟨a, ha, by simp [hae]⟩
      rw [htrue] at htaken2
      cases htaken2

theorem patientsOk_delete (db : DB) (pid : Nat) (h : PatientsOk db) :
    PatientsOk (PatientCRUD.delete db pid).1 := by
  obtain ⟨hid, hbound, hem⟩ := h
  cases hh : (db.patients.filter (fun p => p.id == pid)).head? with
  | none =>
    simp only [PatientCRUD.delete, hh]
    exact ⟨hid, hbound, hem⟩
  | some p =>
    simp only [PatientCRUD.delete, hh]
    refine ⟨?_, ?_, ?_⟩
    · exact pairwise_updateFirst (fun q => q.id == pid)
        (fun q => { q with is_active := false, updated_at := db.now })
        (fun x y hxy => hxy) (fun x y hxy => hxy) hid
    · intro q hq
      obtain ⟨x, hx, hbx⟩ := mem_updateFirst hq
      rcases hbx with rfl | rfl
      · exact hbound _ hx
      · exact hbound x hx
    · exact pairwise_updateFirst (fun q => q.id == pid)
        (fun q => { q with is_active := false, updated_at := db.now })
        (fun x y hxy => hxy) (fun x y hxy => hxy) hem

theorem patientsOk_consult (db : DB) (pid : Nat) (names : List String)
    (kw : ConsultationKwargs) (failAt : Option Nat) (h : PatientsOk db) :
    PatientsOk (ConsultationCRUD.create db pid names kw failAt).1 := by
  have h1 : (ConsultationCRUD.create db pid names kw failAt).1.patients = db.patients := by
    simp only [ConsultationCRUD.create]
    split <;> rfl
  have h2 : (ConsultationCRUD.create db pid names kw failAt).1.next_patient_id
      = db.next_patient_id := by
    simp only [ConsultationCRUD.create]
    split <;> rfl
  unfold PatientsOk
  rw [h1, h2]
  exact h

theorem patientsOk_addPrescription (db : DB) (cid : Nat) (m : String) (h : PatientsOk db) :
    PatientsOk (ConsultationCRUD.add_prescription db cid m).1 :=
  h

theorem patientsOk_addTest (db : DB) (cid : Nat) (t : String) (h : PatientsOk db) :
    PatientsOk (ConsultationCRUD.add_diagnostic_test db cid t).1 :=
  h

theorem patientsOk_update (db : DB) (pid : Nat) (k : PatientUpdateKwargs) (h : PatientsOk db) :
    PatientsOk (PatientCRUD.update db pid k).1 := by
  obtain ⟨hid, hbound, hem⟩ := h
  cases hh : (db.patients.filter (fun p => p.id == pid)).head? with
  | none =>
    simp only [PatientCRUD.update, hh]
    exact ⟨hid, hbound, hem⟩
  | some p =>
    obtain ⟨l1, l2, hdb, hl1, hpp⟩ := head_filter_decomp hh
    have hpid : p.id = pid := by simpa using hpp
    have hpmem : p ∈ db.patients := by
      rw [hdb]
      simp
    cases hcheck : (match (PatientCRUD.applyUpdate p k (PatientCRUD.dobFix k) db.now).email with
        | some e => db.patients.any (fun q => q.id != pid && q.email == some e)
        | none => false) with
    | true =>
      simp only [PatientCRUD.update, hh]
      rw [hcheck]
      simp only [if_true]
      exact ⟨hid, hbound, hem⟩
    | false =>
      have hemail : ∀ e, applyOpt k.email p.email = some e →
          ∀ q ∈ db.patients, q.id ≠ pid → q.email ≠ some e := by
        intro e hpe q hq hqid hqe
        have hpe2 : (PatientCRUD.applyUpdate p k (PatientCRUD.dobFix k) db.now).email
            = some e := hpe
        have hc2 : db.patients.any (fun q2 => q2.id != pid && q2.email == some e) = false := by
          have h0 := hcheck
          rw [hpe2] at h0
          exact h0
        rw [List.any_eq_false] at hc2
        apply hc2 q hq
        rw [Bool.and_eq_true]
        exact ⟨by simpa using hqid, by simp [hqe]⟩
      have hchar := update_found_characterization db pid k p hh hemail
      have hup : updateFirst (fun q => q.id == pid)
          (fun _ => PatientCRUD.applyUpdate p k (PatientCRUD.dobFix k) db.now) db.patients
          = l1 ++ PatientCRUD.applyUpdate p k (PatientCRUD.dobFix k) db.now :: l2 := by
        rw [hdb]
        exact updateFirst_append p l2 hl1 hpp
      have hid2 := hid
      have hem2 := hem
      rw [hdb, List.pairwise_append, List.pairwise_cons] at hid2 hem2
      obtain ⟨hid1, ⟨hidp, hidt⟩, hid12⟩ := hid2
      obtain ⟨hem1, ⟨hemp, hemt⟩, hem12⟩ := hem2
      have hgoal : PatientsOk { db with
          patients := updateFirst (fun q => q.id == pid)
            (fun _ => PatientCRUD.applyUpdate p k (PatientCRUD.dobFix k) db.now) db.patients
          now := db.now + 1 } := by
        refine ⟨?_, ?_, ?_⟩
        · show List.Pairwise (fun a b => a.id ≠ b.id) (updateFirst (fun q => q.id == pid)
            (fun _ => PatientCRUD.applyUpdate p k (PatientCRUD.dobFix k) db.now) db.patients)
          rw [hup, List.pairwise_append, List.pairwise_cons]
          refine ⟨hid1, ⟨fun b hb => hidp b hb, hidt⟩, ?_⟩
          intro a ha b hb
          rcases List.mem_cons.mp hb with rfl | hb2
          · exact hid12 a ha p (by simp)
          · exact hid12 a ha b (by simp [hb2])
        · show ∀ q ∈ updateFirst (fun q => q.id == pid)
            (fun _ => PatientCRUD.applyUpdate p k (PatientCRUD.dobFix k) db.now) db.patients,
            q.id < db.next_patient_id
          intro q hq
          obtain ⟨x, hx, hbx⟩ := mem_updateFirst hq
          rcases hbx with rfl | rfl
          · exact hbound _ hx
          · exact hbound p hpmem
        · show List.Pairwise (fun a b => ∀ e : String, a.email = some e → b.email ≠ some e)
            (updateFirst (fun q => q.id == pid)
              (fun _ => PatientCRUD.applyUpdate p k (PatientCRUD.dobFix k) db.now) db.patients)
          rw [hup, List.pairwise_append, List.pairwise_cons]
          refine ⟨hem1, ⟨?_, hemt⟩, ?_⟩
          · intro b hb e hpe hbe
            have hbid : b.id ≠ pid := by
              rw [← hpid]
              exact fun hcon => hidp b hb hcon.symm
            exact hemail e hpe b (by rw [hdb]; simp [hb]) hbid hbe
          · intro a ha b hb
            rcases List.mem_cons.mp hb with rfl | hb2
            · intro e hae hpe
              have haid : a.id ≠ pid := by
                rw [← hpid]
                exact hid12 a ha p (by simp)
              exact hemail e hpe a (by rw [hdb]; simp [ha]) haid hae
            · exact hem12 a ha b (by simp [hb2])
      rw [hchar]
      exact hgoal

theorem patientsOk_reachable (db : DB) (h : Reachable db) : PatientsOk db := by
  induction h with
  | empty =>
    exact ⟨List.Pairwise.nil, (by intro p hp; cases hp), List.Pairwise.nil⟩
  | createPatient db f _ ih => exact patientsOk_create db f ih
  | updatePatient db pid k _ ih => exact patientsOk_update db pid k ih
  | deletePatient db pid _ ih => exact patientsOk_delete db pid ih
  | createConsultation db pid names kw failAt _ ih =>
    exact patientsOk_consult db pid names kw failAt ih
  | addPrescription db cid m _ ih => exact patientsOk_addPrescription db cid m ih
  | addDiagnosticTest db cid t _ ih => exact patientsOk_addTest db cid t ih

theorem email_filter_le_one {l : List PatientRow} (e : String)
    (h : l.Pairwise (fun p q => ∀ e2 : String, p.email = some e2 → q.email ≠ some e2)) :
    (l.filter (fun p => p.email == some e)).length ≤ 1 := by
  induction l with
  | nil => simp
  | cons a l ih =>
    cases h with
    | cons ha ht =>
      by_cases hae : (a.email == some e) = true
      · simp only [List.filter_cons, hae, if_true, List.length_cons]
        have hnil : l.filter (fun p => p.email == some e) = [] := by
          rw [List.filter_eq_nil_iff]
          intro b hb
          have hbe := ha b hb e (by simpa using hae)
          simp [hbe]
        rw [hnil]
        simp
      · have hae2 : (a.email == some e) = false := by simpa using hae
        simp only [List.filter_cons, hae2, Bool.false_eq_true, if_false]
        exact ih ht

/-- Claim C4: in every reachable store state at most one patient row
(active or inactive) carries any given email, and creating a second
patient with an email already present is rejected with the store
unchanged — as the explicit 400 conflict naming the duplicate when the
handler pre-check fires (non-empty email, valid payload), and otherwise
(empty-string email, which Python truthiness lets past the pre-check)
by the UNIQUE constraint at commit, surfaced as a 400 client error. -/
theorem C4_email_unique (db : DB) (hreach : Reachable db) :
    (∀ e : String, (db.patients.filter (fun p => p.email == some e)).length ≤ 1) ∧
    (∀ (f : PatientCreateFields) (e : String), f.email = some e → emailTaken db e = true →
      (Api.create_patient db f).1 = db ∧ ∃ err, (Api.create_patient db f).2 = .error err) ∧
    (∀ (f : PatientCreateFields) (e : String), f.email = some e → e ≠ "" →
      Api.patientCreateValid f = true → emailTaken db e = true →
      Api.create_patient db f = (db, .error (.conflict "email already registered"))) := by
  have hOk := patientsOk_reachable db hreach
  refine ⟨fun e => email_filter_le_one e hOk.2.2, ?_, ?_⟩
  · intro f e hfe htaken
    cases hvalid : Api.patientCreateValid f with
    | false =>
      simp only [Api.create_patient, hvalid, Bool.not_false, if_true]
      exact ⟨by trivial, ⟨_, rfl⟩⟩
    | true =>
      have hsome : (PatientCRUD.get_by_email db e).isSome = true := by
        rw [emailTaken, List.any_eq_true] at htaken
        obtain ⟨q, hq, hqe⟩ := htaken
        obtain ⟨y, hy⟩ := filter_head_isSome_of_mem (fun p => p.email == some e) hq hqe
        rw [PatientCRUD.get_by_email, hy]
        rfl
      have hcrud : PatientCRUD.create db f = (db, .error (.uniqueViolation "patients.email")) := by
        have hcond : (match f.email with | some e2 => emailTaken db e2 | none => false) = true := by
          rw [hfe]
          exact htaken
        simp only [PatientCRUD.create]
        rw [hcond]
        simp only [if_true]
      cases hpre : (e != "" && (PatientCRUD.get_by_email db e).isSome) with
      | true =>
        simp only [Api.create_patient, hvalid, Bool.not_true, Bool.false_eq_true, if_false, hfe]
        rw [hpre]
        simp only [if_true]
        exact ⟨by trivial, ⟨_, rfl⟩⟩
      | false =>
        simp only [Api.create_patient, hvalid, Bool.not_true, Bool.false_eq_true, if_false, hfe]
        rw [hpre]
        simp only [Bool.false_eq_true, if_false]
        rw [hcrud]
        exact ⟨by trivial, ⟨_, rfl⟩⟩
  · intro f e hfe hne hvalid htaken
    have hsome : (PatientCRUD.get_by_email db e).isSome = true := by
      rw [emailTaken, List.any_eq_true] at htaken
      obtain ⟨q, hq, hqe⟩ := htaken
      obtain ⟨y, hy⟩ := filter_head_isSome_of_mem (fun p => p.email == some e) hq hqe
      rw [PatientCRUD.get_by_email, hy]
      rfl
    have hpre : (e != "" && (PatientCRUD.get_by_email db e).isSome) = true := by
      rw [hsome]
      simp [hne]
    simp only [Api.create_patient, hvalid, Bool.not_true, Bool.false_eq_true, if_false, hfe]
    rw [hpre]
    simp only [if_true]

/-- Witness for C4 on a reachable one-patient store: a second
registration with the same email is rejected as a conflict and the
state is unchanged. -/
theorem C4_witness :
    (c4Db.patients.filter (fun p => p.email == some "ola@x")).length ≤ 1 ∧
    (Api.create_patient c4Db
      { first_name := "Zed", last_name := "Quo", email := some "ola@x" }).1 = c4Db ∧
    Api.create_patient c4Db { first_name := "Zed", last_name := "Quo", email := some "ola@x" }
      = (c4Db, .error (.conflict "email already registered")) :=
  have hr : Reachable c4Db :=
    Reachable.createPatient {} { first_name := "Ola", last_name := "Pim", email := some "ola@x" }
      Reachable.empty
  ⟨(C4_email_unique c4Db hr).1 "ola@x",
   ((C4_email_unique c4Db hr).2.1 _ "ola@x" rfl (by decide)).1,
   (C4_email_unique c4Db hr).2.2 _ "ola@x" rfl (by decide) (by decide) (by decide)⟩

/-- Claim C5, counterexample: after deactivating the (only) patient,
a second deactivate call still succeeds and the row is still stored —
but the direct id lookup `PatientCRUD.get_by_id` filters on
`is_active == True` and reports not found for the deactivated row,
contrary to the claim that the row is still retrievable by direct id
lookup. -/
theorem C5_counterexample :
    (PatientCRUD.delete (PatientCRUD.delete c5Db 1).1 1).2 = true ∧
    (PatientCRUD.delete (PatientCRUD.delete c5Db 1).1 1).1.patients = [c5RowAfter] ∧
    c5RowAfter.is_active = false ∧
    PatientCRUD.get_by_id (PatientCRUD.delete (PatientCRUD.delete c5Db 1).1 1).1 1 = none := by
  decide

/-- Claim C5, amended: deactivation is idempotent — for any store
whose patient ids are distinct (as autoincrement guarantees) and any
id present in it, both the first and the second `delete` call succeed
and report success, the row is still stored afterwards with
`active=false`, and `delete` reports "not found" exactly for ids with
no row at all; however, the direct id lookup `get_by_id` filters on
`is_active == True` and reports not found for the deactivated row
(the row is reachable only through the update/delete lookup path). -/
theorem C5_deactivate_idempotent (db : DB) (pid : Nat)
    (hids : db.patients.Pairwise (fun p q => p.id ≠ q.id))
    (hex : ∃ p ∈ db.patients, p.id = pid) :
    (PatientCRUD.delete db pid).2 = true ∧
    (PatientCRUD.delete (PatientCRUD.delete db pid).1 pid).2 = true ∧
    (∃ p ∈ (PatientCRUD.delete (PatientCRUD.delete db pid).1 pid).1.patients,
        p.id = pid ∧ p.is_active = false) ∧
    PatientCRUD.get_by_id (PatientCRUD.delete (PatientCRUD.delete db pid).1 pid).1 pid = none ∧
    (∀ db2 : DB, (PatientCRUD.delete db2 pid).2 = false ↔ ∀ p ∈ db2.patients, p.id ≠ pid) := by
  obtain ⟨p0, hp0mem, hp0id⟩ := hex
  have hpred : (p0.id == pid) = true := by simp [hp0id]
  obtain ⟨y, hy⟩ := filter_head_isSome_of_mem (fun p => p.id == pid) hp0mem hpred
  obtain ⟨l1, l2, hdb, hl1, hyp⟩ := head_filter_decomp hy
  have hyid : y.id = pid := by simpa using hyp
  have h1 : PatientCRUD.delete db pid =
      ({ db with
          patients := updateFirst (fun p => p.id == pid)
            (fun p => { p with is_active := false, updated_at := db.now }) db.patients
          now := db.now + 1 }, true) := by
    simp only [PatientCRUD.delete, hy]
  have hup1 : updateFirst (fun p => p.id == pid)
      (fun p => { p with is_active := false, updated_at := db.now }) db.patients
      = l1 ++ { y with is_active := false, updated_at := db.now } :: l2 := by
    rw [hdb]
    exact updateFirst_append y l2 hl1 hyp
  set y1 : PatientRow := { y with is_active := false, updated_at := db.now } with hy1def
  have hy1pred : (y1.id == pid) = true := by simpa [hy1def] using hyp
  have hfilter1 : ((l1 ++ y1 :: l2).filter (fun p => p.id == pid)).head? = some y1 := by
    rw [List.filter_append, List.filter_eq_nil_iff.mpr (fun a ha => by simp [hl1 a ha]),
      List.filter_cons]
    simp [hy1pred]
  have h2 : PatientCRUD.delete (PatientCRUD.delete db pid).1 pid =
      ({ db with
          patients := updateFirst (fun p => p.id == pid)
            (fun p => { p with is_active := false, updated_at := db.now + 1 }) (l1 ++ y1 :: l2)
          now := db.now + 2 }, true) := by
    rw [h1]
    simp only [PatientCRUD.delete, hup1, hfilter1]
  set y2 : PatientRow := { y1 with is_active := false, updated_at := db.now + 1 } with hy2def
  have hup2 : updateFirst (fun p => p.id == pid)
      (fun p => { p with is_active := false, updated_at := db.now + 1 }) (l1 ++ y1 :: l2)
      = l1 ++ y2 :: l2 :=
    updateFirst_append y1 l2 hl1 hy1pred
  have hl2 : ∀ q ∈ l2, (q.id == pid) = false := by
    rw [hdb] at hids
    have hmid := (List.pairwise_append.mp hids).2.1
    cases hmid with
    | cons hq _ =>
      intro q hq2
      have hne := hq q hq2
      rw [hyid] at hne
      exact beq_eq_false_iff_ne.mpr (Ne.symm hne)
  refine ⟨by rw [h1], by rw [h2], ?_, ?_, ?_⟩
  · refine ⟨y2, ?_, ?_, rfl⟩
    · rw [h2, hup2]
      simp
    · simp only [hy2def, hy1def]
      exact hyid
  · rw [h2]
    simp only [PatientCRUD.get_by_id, hup2]
    rw [List.filter_append, List.filter_eq_nil_iff.mpr (fun a ha => by simp [hl1 a ha]),
      List.filter_cons]
    have hcond : (y2.id == pid && y2.is_active) = false := by simp [hy2def]
    rw [hcond]
    simp only [if_false, Bool.false_eq_true]
    rw [List.filter_eq_nil_iff.mpr (fun a ha => by simp [hl2 a ha])]
    rfl
  · intro db2
    cases hh : (db2.patients.filter (fun p => p.id == pid)).head? with
    | none =>
      rw [List.head?_eq_none_iff, List.filter_eq_nil_iff] at hh
      simp only [PatientCRUD.delete]
      constructor
      · intro _ p hp hpp
        exact hh p hp (by simp [hpp])
      · intro _
        rw [List.head?_eq_none_iff.mpr (List.filter_eq_nil_iff.mpr hh)]
    | some z =>
      have hzmem : z ∈ db2.patients.filter (fun p => p.id == pid) := by
        cases hlf : db2.patients.filter (fun p => p.id == pid) with
        | nil =>
          rw [hlf] at hh
          cases hh
        | cons a t =>
          rw [hlf] at hh
          simp only [List.head?_cons, Option.some.injEq] at hh
          simp [hh]
      have hz := List.mem_filter.mp hzmem
      simp only [PatientCRUD.delete, hh]
      constructor
      · intro hcon
        exact absurd hcon (by simp)
      · intro hall
        exact absurd (by simpa using hz.2) (hall z hz.1)

/-- Witness for C5 on a one-patient store: both deactivations succeed
and the direct id lookup then reports not found. -/
theorem C5_witness :
    c5Db.patients.Pairwise (fun p q => p.id ≠ q.id) ∧
    (PatientCRUD.delete c5Db 1).2 = true ∧
    (PatientCRUD.delete (PatientCRUD.delete c5Db 1).1 1).2 = true ∧
    PatientCRUD.get_by_id (PatientCRUD.delete (PatientCRUD.delete c5Db 1).1 1).1 1 = none :=
  ⟨by decide,
   (C5_deactivate_idempotent c5Db 1 (by decide)
     ⟨{ id := 1, first_name := "Eve", last_name := "Fox" }, by decide, rfl⟩).1,
   (C5_deactivate_idempotent c5Db 1 (by decide)
     ⟨{ id := 1, first_name := "Eve", last_name := "Fox" }, by decide, rfl⟩).2.1,
   (C5_deactivate_idempotent c5Db 1 (by decide)
     ⟨{ id := 1, first_name := "Eve", last_name := "Fox" }, by decide, rfl⟩).2.2.2.1⟩

/-- Claim C6: deactivating an existing patient succeeds and changes
only that patient's row, and there only the `is_active` flag (to
`false`) and `updated_at`; every consultation, symptom, prescription
and diagnostic-test row is retained verbatim, the consultation history
remains readable through `get_by_patient` and `get_recent`, and the
patient row itself is still stored (soft delete, never a hard
delete). -/
theorem C6_soft_delete_frame (db : DB) (pid : Nat)
    (hex : ∃ p ∈ db.patients, p.id = pid) :
    (PatientCRUD.delete db pid).2 = true ∧
    List.Forall₂ (fun old new => new = old ∨ ((old.id == pid) = true ∧
        new = { old with is_active := false, updated_at := db.now }))
      db.patients (PatientCRUD.delete db pid).1.patients ∧
    (PatientCRUD.delete db pid).1.consultations = db.consultations ∧
    (PatientCRUD.delete db pid).1.symptoms = db.symptoms ∧
    (PatientCRUD.delete db pid).1.prescriptions = db.prescriptions ∧
    (PatientCRUD.delete db pid).1.tests = db.tests ∧
    (∀ skip limit, ConsultationCRUD.get_by_patient (PatientCRUD.delete db pid).1 pid skip limit
        = ConsultationCRUD.get_by_patient db pid skip limit) ∧
    (∀ limit, ConsultationCRUD.get_recent (PatientCRUD.delete db pid).1 limit
        = ConsultationCRUD.get_recent db limit) ∧
    (∃ p ∈ (PatientCRUD.delete db pid).1.patients, p.id = pid ∧ p.is_active = false) := by
  obtain ⟨p0, hp0mem, hp0id⟩ := hex
  have hpred : (p0.id == pid) = true := by simp [hp0id]
  obtain ⟨y, hy⟩ := filter_head_isSome_of_mem (fun p => p.id == pid) hp0mem hpred
  obtain ⟨l1, l2, hdb, hl1, hyp⟩ := head_filter_decomp hy
  have h1 : PatientCRUD.delete db pid =
      ({ db with
          patients := updateFirst (fun p => p.id == pid)
            (fun p => { p with is_active := false, updated_at := db.now }) db.patients
          now := db.now + 1 }, true) := by
    simp only [PatientCRUD.delete, hy]
  have hup1 : updateFirst (fun p => p.id == pid)
      (fun p => { p with is_active := false, updated_at := db.now }) db.patients
      = l1 ++ { y with is_active := false, updated_at := db.now } :: l2 := by
    rw [hdb]
    exact updateFirst_append y l2 hl1 hyp
  rw [h1]
  refine ⟨rfl, updateFirst_forall2 _ _ _, rfl, rfl, rfl, rfl, fun skip limit => rfl,
    fun limit => rfl, ?_⟩
  refine ⟨{ y with is_active := false, updated_at := db.now }, ?_, by simpa using hyp, rfl⟩
  rw [hup1]
  simp

/-- Witness for C6 on a store holding one patient with one
consultation: deactivation succeeds and the consultation history is
unchanged and still readable. -/
theorem C6_witness :
    (PatientCRUD.delete c6Db 1).2 = true ∧
    (PatientCRUD.delete c6Db 1).1.consultations = c6Db.consultations ∧
    (PatientCRUD.delete c6Db 1).1.symptoms = c6Db.symptoms ∧
    ConsultationCRUD.get_by_patient (PatientCRUD.delete c6Db 1).1 1 0 50
      = ConsultationCRUD.get_by_patient c6Db 1 0 50 ∧
    ConsultationCRUD.get_recent (PatientCRUD.delete c6Db 1).1 20
      = ConsultationCRUD.get_recent c6Db 20 :=
  ⟨(C6_soft_delete_frame c6Db 1
      ⟨{ id := 1, first_name := "Gil", last_name := "Hay" }, by decide, rfl⟩).1,
   (C6_soft_delete_frame c6Db 1
      ⟨{ id := 1, first_name := "Gil", last_name := "Hay" }, by decide, rfl⟩).2.2.1,
   (C6_soft_delete_frame c6Db 1
      ⟨{ id := 1, first_name := "Gil", last_name := "Hay" }, by decide, rfl⟩).2.2.2.1,
   (C6_soft_delete_frame c6Db 1
      ⟨{ id := 1, first_name := "Gil", last_name := "Hay" }, by decide, rfl⟩).2.2.2.2.2.2.1 0 50,
   (C6_soft_delete_frame c6Db 1
      ⟨{ id := 1, first_name := "Gil", last_name := "Hay" }, by decide, rfl⟩).2.2.2.2.2.2.2.1 20⟩

/-- Claim C7, counterexample: patient 2 exists (active), but the
partial update setting its email to the email of patient 1 applies
nothing: the UNIQUE constraint raises at commit, the exception is not
caught by `update_patient`, and the request fails as a 500 with the
store unchanged — the claim instead promised that every partial update
of an existing patient applies the supplied fields. -/
theorem C7_counterexample :
    ((c7Db.patients.filter (fun q => q.id == 2)).head?).isSome = true ∧
    Api.update_patient c7Db 2 c7Payload = (c7Db, .error .server) := by
  decide

/-- Claim C7, amended: for every existing patient id (active or not)
and every valid partial update whose resulting email does not collide
with another row's, `update_patient` applies exactly the fields present
in the payload (`d.f.or p.f`: a present value overwrites, an absent
field is left untouched), leaves identity fields and `is_active`
unchanged, refreshes `updated_at`, and persists exactly that row; it
reports "not found" exactly when the id resolves to no row at all
(active or not).  A colliding email makes the commit raise instead
(500), applying nothing — see the counterexample. -/
theorem C7_update_partial_fields (db : DB) (pid : Nat) (d : Api.PatientUpdatePayload) :
    (∀ p, (db.patients.filter (fun q => q.id == pid)).head? = some p →
      Api.patientUpdateValid d = true →
      (∀ e, d.email.or p.email = some e → ∀ q ∈ db.patients, q.id ≠ pid → q.email ≠ some e) →
      Api.update_patient db pid d =
        ({ db with
            patients := updateFirst (fun q => q.id == pid)
              (fun _ => updatedRowVia p d db.now) db.patients
            now := db.now + 1 },
         .ok (updatedRowVia p d db.now)) ∧
      ((updatedRowVia p d db.now).id = p.id ∧
        (updatedRowVia p d db.now).created_at = p.created_at ∧
        (updatedRowVia p d db.now).updated_at = db.now ∧
        (updatedRowVia p d db.now).first_name = p.first_name ∧
        (updatedRowVia p d db.now).last_name = p.last_name ∧
        (updatedRowVia p d db.now).is_active = p.is_active) ∧
      ((updatedRowVia p d db.now).email = d.email.or p.email ∧
        (updatedRowVia p d db.now).phone = d.phone.or p.phone ∧
        (updatedRowVia p d db.now).age = d.age.or p.age ∧
        (updatedRowVia p d db.now).gender = d.gender.or p.gender ∧
        (updatedRowVia p d db.now).weight = d.weight.or p.weight ∧
        (updatedRowVia p d db.now).height = d.height.or p.height ∧
        (updatedRowVia p d db.now).blood_type = d.blood_type.or p.blood_type ∧
        (updatedRowVia p d db.now).medical_history = d.medical_history.or p.medical_history ∧
        (updatedRowVia p d db.now).current_medications
          = d.current_medications.or p.current_medications ∧
        (updatedRowVia p d db.now).allergies = d.allergies.or p.allergies ∧
        (updatedRowVia p d db.now).family_history = d.family_history.or p.family_history ∧
        (updatedRowVia p d db.now).smoking_status = d.smoking_status.or p.smoking_status ∧
        (updatedRowVia p d db.now).alcohol_use = d.alcohol_use.or p.alcohol_use) ∧
      (∀ s dt, d.date_of_birth = some s → parseDateYMD s = some dt →
        (updatedRowVia p d db.now).date_of_birth = some dt) ∧
      (d.date_of_birth = none →
        (updatedRowVia p d db.now).date_of_birth = p.date_of_birth)) ∧
    ((Api.update_patient db pid d).2 = .error .notFound ↔
      Api.patientUpdateValid d = true ∧ ∀ q ∈ db.patients, q.id ≠ pid) := by
  constructor
  · intro p hp hvalid hemail
    have hemail2 : ∀ e, applyOpt (Api.toKwargs d).email p.email = some e →
        ∀ q ∈ db.patients, q.id ≠ pid → q.email ≠ some e := by
      intro e he
      rw [show (Api.toKwargs d).email = d.email.map some from rfl, applyOpt_map_some] at he
      exact hemail e he
    have hchar := update_found_characterization db pid (Api.toKwargs d) p hp hemail2
    refine ⟨?_, ⟨rfl, rfl, rfl, rfl, rfl, rfl⟩, ?_, ?_, ?_⟩
    · simp only [Api.update_patient, hvalid, Bool.not_true, Bool.false_eq_true, if_false,
        hchar, updatedRowVia]
    · exact ⟨applyOpt_map_some _ _, applyOpt_map_some _ _, applyOpt_map_some _ _,
        applyOpt_map_some _ _, applyOpt_map_some _ _, applyOpt_map_some _ _,
        applyOpt_map_some _ _, applyOpt_map_some _ _, applyOpt_map_some _ _,
        applyOpt_map_some _ _, applyOpt_map_some _ _, applyOpt_map_some _ _,
        applyOpt_map_some _ _⟩
    · intro s dt hs hdt
      simp [updatedRowVia, PatientCRUD.applyUpdate, PatientCRUD.dobFix, Api.toKwargs, hs, hdt,
        applyOpt]
    · intro hnone
      simp [updatedRowVia, PatientCRUD.applyUpdate, PatientCRUD.dobFix, Api.toKwargs, hnone,
        applyOpt]
  · cases hvalid : Api.patientUpdateValid d with
    | false =>
      simp only [Api.update_patient, hvalid, Bool.not_false, if_true]
      constructor
      · intro hcon
        cases hcon
      · intro hcon
        exact absurd hcon.1 (by simp [hvalid])
    | true =>
      cases hh : (db.patients.filter (fun q => q.id == pid)).head? with
      | none =>
        rw [List.head?_eq_none_iff, List.filter_eq_nil_iff] at hh
        simp only [Api.update_patient, hvalid, Bool.not_true, Bool.false_eq_true, if_false,
          PatientCRUD.update, List.head?_eq_none_iff.mpr (List.filter_eq_nil_iff.mpr hh)]
        constructor
        · intro _
          exact ⟨by trivial, fun q hq => by simpa using hh q hq⟩
        · intro _
          trivial
      | some p =>
        obtain ⟨l1, l2, hdb, hl1, hpp⟩ := head_filter_decomp hh
        have hpmem : p ∈ db.patients := by
          rw [hdb]
          simp
        have hpid : p.id = pid := by simpa using hpp
        constructor
        · intro hcon
          simp only [Api.update_patient, hvalid, Bool.not_true, Bool.false_eq_true, if_false,
            PatientCRUD.update, hh] at hcon
          cases hcond : (match (PatientCRUD.applyUpdate p (Api.toKwargs d)
              (PatientCRUD.dobFix (Api.toKwargs d)) db.now).email with
            | some e => db.patients.any (fun q => q.id != pid && q.email == some e)
            | none => false) with
          | true =>
            rw [hcond] at hcon
            simp at hcon
          | false =>
            rw [hcond] at hcon
            simp at hcon
        · intro hall
          exact absurd hpid (hall.2 p hpmem)

/-- Witness for C7: updating phone and age on an existing patient
applies exactly those two fields, keeps the email, and refreshes
`updated_at`. -/
theorem C7_witness :
    Api.update_patient c7wDb 1 c7wPayload =
      ({ c7wDb with
          patients := updateFirst (fun q => q.id == 1)
            (fun _ => updatedRowVia c7wP c7wPayload c7wDb.now) c7wDb.patients
          now := c7wDb.now + 1 },
       .ok (updatedRowVia c7wP c7wPayload c7wDb.now)) ∧
    (updatedRowVia c7wP c7wPayload c7wDb.now).phone = some "0123" ∧
    (updatedRowVia c7wP c7wPayload c7wDb.now).age = some 33 ∧
    (updatedRowVia c7wP c7wPayload c7wDb.now).email = some "j@x" ∧
    (updatedRowVia c7wP c7wPayload c7wDb.now).updated_at = c7wDb.now :=
  ⟨((C7_update_partial_fields c7wDb 1 c7wPayload).1 c7wP (by decide) (by decide)
      (fun e he q hq hne => by
        rw [show c7wDb.patients = [c7wP] from by decide] at hq
        simp only [List.mem_singleton] at hq
        rw [hq] at hne
        simp [c7wP] at hne)).1,
   by decide, by decide, by decide, by decide⟩

/-- Claim C9, counterexample: `ilike` interprets `_` in the query as a
single-character wildcard, so searching for "a_c" returns the patient
whose first name is "abc" even though no field of that patient contains
"a_c" as a (case-insensitive) substring — the result set is not the set
the claim describes. -/
theorem C9_counterexample :
    Api.search_patients c9Db "a_c" = .ok [c9Row] ∧
    (c9Row.is_active &&
      (containsCI "a_c" c9Row.first_name || containsCI "a_c" c9Row.last_name ||
        (match c9Row.email with | some f => containsCI "a_c" f | none => false) ||
        (match c9Row.phone with | some f => containsCI "a_c" f | none => false))) = false := by
  decide

/-- Claim C8: for every surfaced patient record whose weight respects
the boundary validation `weight ≥ 0` (pydantic `ge=0`), the derived
`bmi` is present iff both weight and height are strictly positive, its
value is `weight / (height/100)^2` rounded to one decimal place, and
the derived `bmi_category` is absent whenever `bmi` is absent. -/
theorem C8_bmi_presence_and_value (p : PatientRow) (hw : ∀ x, p.weight = some x → 0 ≤ x) :
    ((calculateBmi p.weight p.height).isSome ↔
      (∃ x, p.weight = some x ∧ 0 < x) ∧ (∃ y, p.height = some y ∧ 0 < y)) ∧
    (∀ x y, p.weight = some x → p.height = some y → 0 < x → 0 < y →
      calculateBmi p.weight p.height = some (pyRound1 (x / (y / 100) ^ 2))) ∧
    (calculateBmi p.weight p.height = none → toDictBmiCategory p.weight p.height = none) := by
  refine ⟨?_, ?_, ?_⟩
  · cases hwv : p.weight with
    | none => simp [calculateBmi]
    | some x =>
      cases hhv : p.height with
      | none => simp [calculateBmi]
      | some y =>
        simp only [calculateBmi]
        by_cases hcond : x ≠ 0 ∧ y ≠ 0 ∧ 0 < y
        · rw [if_pos hcond]
          simp only [Option.isSome_some, true_iff]
          have hx0 := hw x hwv
          exact ⟨⟨x, rfl, lt_of_le_of_ne hx0 (Ne.symm hcond.1)⟩, ⟨y, rfl, hcond.2.2⟩⟩
        · rw [if_neg hcond]
          simp only [Option.isSome_none, Bool.false_eq_true, false_iff]
          intro hcon
          obtain ⟨⟨x2, hx2, hx2p⟩, ⟨y2, hy2, hy2p⟩⟩ := hcon
          rw [Option.some.injEq] at hx2 hy2
          subst hx2
          subst hy2
          exact hcond ⟨ne_of_gt hx2p, ne_of_gt hy2p, hy2p⟩
  · intro x y hx hy hxp hyp
    rw [hx, hy]
    simp only [calculateBmi]
    rw [if_pos ⟨ne_of_gt hxp, ne_of_gt hyp, hyp⟩]
  · intro h
    simp [toDictBmiCategory, h]

/-- Witness for C8: weight 70 kg, height 170 cm gives BMI
`round(70 / 1.7^2, 1) = 24.2`. -/
theorem C8_witness :
    (∀ x : ℚ, c8Patient.weight = some x → 0 ≤ x) ∧
    calculateBmi c8Patient.weight c8Patient.height
      = some (pyRound1 (70 / ((170 : ℚ) / 100) ^ 2)) ∧
    pyRound1 (70 / ((170 : ℚ) / 100) ^ 2) = 121 / 5 :=
  ⟨fun x hx => by
      injection hx with h
      rw [← h]
      norm_num,
   (C8_bmi_presence_and_value c8Patient (fun x hx => by
      injection hx with h
      rw [← h]
      norm_num)).2.1 70 170 rfl rfl (by norm_num) (by norm_num),
   by norm_num [pyRound1, roundHalfEven]⟩

/-! ### SQL `LIKE` versus substring containment -/

theorem likeMatch_percent (s : List Char) : likeMatch ['%'] s = true := by
  have h0 : likeMatch ['%'] s = s.tails.any (fun t => likeMatch [] t) := rfl
  rw [h0, List.any_eq_true]
  refine ⟨[], ?_, rfl⟩
  rw [List.mem_tails]
  exact List.nil_suffix

/-- A wildcard-free pattern followed by `%` matches exactly the strings
it prefixes. -/
theorem likeMatch_plain_percent (p : List Char) (hw : ∀ c ∈ p, c ≠ '%' ∧ c ≠ '_') :
    ∀ s, likeMatch (p ++ ['%']) s = true ↔ p <+: s := by
  induction p with
  | nil =>
    intro s
    simp only [List.nil_append, likeMatch_percent, List.nil_prefix]
  | cons a p ih =>
    intro s
    have ha := hw a (by simp)
    have hw2 : ∀ c ∈ p, c ≠ '%' ∧ c ≠ '_' := fun c hc => hw c (by simp [hc])
    cases s with
    | nil =>
      simp only [List.cons_append, likeMatch, if_neg ha.1]
      constructor
      · intro hcon
        cases hcon
      · intro hcon
        have := hcon.length_le
        simp at this
    | cons c s2 =>
      simp only [List.cons_append, likeMatch, if_neg ha.1]
      rw [List.cons_prefix_cons]
      constructor
      · intro h
        rw [Bool.and_eq_true] at h
        have h1 := h.1
        rw [Bool.or_eq_true] at h1
        rcases h1 with h1 | h1
        · exact absurd (by simpa using h1) ha.2
        · exact ⟨by simpa using h1, (ih hw2 s2).mp h.2⟩
      · intro ⟨h1, h2⟩
        rw [Bool.and_eq_true, Bool.or_eq_true]
        exact ⟨Or.inr (by simp [h1]), (ih hw2 s2).mpr h2⟩

/-- `%p%` with a wildcard-free `p` matches exactly the strings
containing `p` as a contiguous substring. -/
theorem likeMatch_substring (q : List Char) (hw : ∀ c ∈ q, c ≠ '%' ∧ c ≠ '_') (s : List Char) :
    likeMatch ('%' :: (q ++ ['%'])) s = true ↔ q <:+: s := by
  have h0 : likeMatch ('%' :: (q ++ ['%'])) s
      = s.tails.any (fun t => likeMatch (q ++ ['%']) t) := rfl
  rw [h0, List.any_eq_true]
  rw [List.infix_iff_prefix_suffix]
  constructor
  · intro ⟨t, ht, hm⟩
    rw [List.mem_tails] at ht
    exact ⟨t, (likeMatch_plain_percent q hw t).mp hm, ht⟩
  · intro ⟨t, hp, hs⟩
    refine ⟨t, ?_, (likeMatch_plain_percent q hw t).mpr hp⟩
    rw [List.mem_tails]
    exact hs

/-- For a query free of the `LIKE` wildcards, `ilike('%q%')` is exactly
case-insensitive substring containment. -/
theorem ilike_eq_containsCI (q f : String) (hw : ∀ c ∈ lowerStr q, c ≠ '%' ∧ c ≠ '_') :
    ilikeContains q f = containsCI q f := by
  have hsplit : lowerStr ("%" ++ q ++ "%") = '%' :: (lowerStr q ++ ['%']) := by
    simp [lowerStr, String.toList, String.data_append]
  rw [ilikeContains, hsplit, containsCI]
  by_cases hin : lowerStr q <:+: lowerStr f
  · rw [(likeMatch_substring (lowerStr q) hw (lowerStr f)).mpr hin, decide_eq_true hin]
  · have h1 : likeMatch ('%' :: (lowerStr q ++ ['%'])) (lowerStr f) = false := by
      cases hlm : likeMatch ('%' :: (lowerStr q ++ ['%'])) (lowerStr f) with
      | false => rfl
      | true => exact absurd ((likeMatch_substring (lowerStr q) hw (lowerStr f)).mp hlm) hin
    rw [h1, decide_eq_false hin]

theorem optIlike_eq_elim (q : String) (o : Option String)
    (hw : ∀ c ∈ lowerStr q, c ≠ '%' ∧ c ≠ '_') :
    optIlike q o = o.elim false (fun f => containsCI q f) := by
  cases o with
  | none => rfl
  | some f => exact ilike_eq_containsCI q f hw

/-- Claim C9, amended: for every non-empty search text whose lowercased
form contains neither `LIKE` wildcard (`%`, `_` — case folding fixes
both characters), `search_patients` returns exactly the active patients
with a case-insensitive substring match of the text in first name, last
name, email or phone; the empty query is rejected with a client error
(min_length=1), not treated as match-all.  Texts containing `%` or `_`
are instead interpreted as `LIKE` patterns — see the counterexample. -/
theorem C9_search_substring (db : DB) (q : String) :
    (q ≠ "" → (∀ c ∈ lowerStr q, c ≠ '%' ∧ c ≠ '_') →
      Api.search_patients db q = .ok (db.patients.filter (fun p =>
        p.is_active && (containsCI q p.first_name || containsCI q p.last_name ||
          p.email.elim false (fun f => containsCI q f) ||
          p.phone.elim false (fun f => containsCI q f))))) ∧
    Api.search_patients db "" = .error (.validation "422 q shorter than min_length=1") := by
  constructor
  · intro hq hw
    have hlen : ¬(q.length < 1) := by
      intro hcon
      have h0 : q.length = 0 := by omega
      have hdl : q.data.length = 0 := h0
      have hdata : q.data = [] := List.length_eq_zero.mp hdl
      apply hq
      cases q with
      | mk data =>
        have hd2 : data = [] := hdata
        rw [hd2]
    simp only [Api.search_patients, if_neg hlen, Except.ok.injEq]
    rw [PatientCRUD.search]
    apply List.filter_congr
    intro p _
    rw [ilike_eq_containsCI q p.first_name hw, ilike_eq_containsCI q p.last_name hw,
      optIlike_eq_elim q p.email hw, optIlike_eq_elim q p.phone hw]
  · simp [Api.search_patients]

/-- Witness for C9: searching "john" matches both the patient named
"John Doe" and the patient whose email is "ajohnson@x.com", and the
empty query is rejected. -/
theorem C9_witness :
    Api.search_patients c9wDb "john" = .ok (c9wDb.patients.filter (fun p =>
      p.is_active && (containsCI "john" p.first_name || containsCI "john" p.last_name ||
        p.email.elim false (fun f => containsCI "john" f) ||
        p.phone.elim false (fun f => containsCI "john" f)))) ∧
    Api.search_patients c9wDb "john" = .ok [c9wJohn, c9wAlice] ∧
    Api.search_patients c9wDb "" = .error (.validation "422 q shorter than min_length=1") :=
  ⟨(C9_search_substring c9wDb "john").1 (by decide) (by decide),
   by decide,
   (C9_search_substring c9wDb "").2⟩

/-- Claim C10, counterexample: the kwarg `date_of_birth` is supplied
with the non-`None` value "2000-13-01" (month 13, unparsable), its name
matches a `Patient` attribute, yet `PatientCRUD.update` does not apply
it: the key is popped and the stored birth date stays `2000-01-15`. -/
theorem C10_counterexample :
    c10K.date_of_birth = some (some "2000-13-01") ∧
    (PatientCRUD.update c10Db 1 c10K).2 = .ok (some c10RowAfter) ∧
    c10RowAfter.date_of_birth = some ⟨2000, 1, 15⟩ := by
  decide

/-- Claim C10, amended: on a found row (no-collision email), the
`setattr` loop of `PatientCRUD.update` ignores every supplied field
whose value is `None` and applies every other supplied field naming a
`Patient` attribute (`(k.f.bind id).or old` / `.getD old`) — including
`is_active`, so `is_active=true` reactivates a deactivated patient —
with the single exception of a `date_of_birth` string that fails
YYYY-MM-DD parsing, which is popped and leaves the stored date
unchanged. -/
theorem C10_update_loop_semantics (db : DB) (pid : Nat) (k : PatientUpdateKwargs)
    (p : PatientRow) (hp : (db.patients.filter (fun q => q.id == pid)).head? = some p)
    (hemail : ∀ e, applyOpt k.email p.email = some e →
        ∀ q ∈ db.patients, q.id ≠ pid → q.email ≠ some e) :
    PatientCRUD.update db pid k =
      ({ db with
          patients := updateFirst (fun q => q.id == pid)
            (fun _ => PatientCRUD.applyUpdate p k (PatientCRUD.dobFix k) db.now) db.patients
          now := db.now + 1 },
       .ok (some (PatientCRUD.applyUpdate p k (PatientCRUD.dobFix k) db.now))) ∧
    ((PatientCRUD.applyUpdate p k (PatientCRUD.dobFix k) db.now).id = p.id ∧
      (PatientCRUD.applyUpdate p k (PatientCRUD.dobFix k) db.now).created_at = p.created_at ∧
      (PatientCRUD.applyUpdate p k (PatientCRUD.dobFix k) db.now).updated_at = db.now) ∧
    ((PatientCRUD.applyUpdate p k (PatientCRUD.dobFix k) db.now).first_name
        = (k.first_name.bind id).getD p.first_name ∧
      (PatientCRUD.applyUpdate p k (PatientCRUD.dobFix k) db.now).last_name
        = (k.last_name.bind id).getD p.last_name ∧
      (PatientCRUD.applyUpdate p k (PatientCRUD.dobFix k) db.now).email
        = (k.email.bind id).or p.email ∧
      (PatientCRUD.applyUpdate p k (PatientCRUD.dobFix k) db.now).phone
        = (k.phone.bind id).or p.phone ∧
      (PatientCRUD.applyUpdate p k (PatientCRUD.dobFix k) db.now).age
        = (k.age.bind id).or p.age ∧
      (PatientCRUD.applyUpdate p k (PatientCRUD.dobFix k) db.now).gender
        = (k.gender.bind id).or p.gender ∧
      (PatientCRUD.applyUpdate p k (PatientCRUD.dobFix k) db.now).weight
        = (k.weight.bind id).or p.weight ∧
      (PatientCRUD.applyUpdate p k (PatientCRUD.dobFix k) db.now).height
        = (k.height.bind id).or p.height ∧
      (PatientCRUD.applyUpdate p k (PatientCRUD.dobFix k) db.now).blood_type
        = (k.blood_type.bind id).or p.blood_type ∧
      (PatientCRUD.applyUpdate p k (PatientCRUD.dobFix k) db.now).medical_history
        = (k.medical_history.bind id).or p.medical_history ∧
      (PatientCRUD.applyUpdate p k (PatientCRUD.dobFix k) db.now).current_medications
        = (k.current_medications.bind id).or p.current_medications ∧
      (PatientCRUD.applyUpdate p k (PatientCRUD.dobFix k) db.now).allergies
        = (k.allergies.bind id).or p.allergies ∧
      (PatientCRUD.applyUpdate p k (PatientCRUD.dobFix k) db.now).family_history
        = (k.family_history.bind id).or p.family_history ∧
      (PatientCRUD.applyUpdate p k (PatientCRUD.dobFix k) db.now).smoking_status
        = (k.smoking_status.bind id).or p.smoking_status ∧
      (PatientCRUD.applyUpdate p k (PatientCRUD.dobFix k) db.now).alcohol_use
        = (k.alcohol_use.bind id).or p.alcohol_use ∧
      (PatientCRUD.applyUpdate p k (PatientCRUD.dobFix k) db.now).is_active
        = (k.is_active.bind id).getD p.is_active) ∧
    (k.is_active = some (some true) →
      (PatientCRUD.applyUpdate p k (PatientCRUD.dobFix k) db.now).is_active = true) ∧
    (∀ s, k.date_of_birth = some (some s) →
      (∀ dt, parseDateYMD s = some dt →
        (PatientCRUD.applyUpdate p k (PatientCRUD.dobFix k) db.now).date_of_birth = some dt) ∧
      (parseDateYMD s = none →
        (PatientCRUD.applyUpdate p k (PatientCRUD.dobFix k) db.now).date_of_birth
          = p.date_of_birth)) ∧
    ((k.date_of_birth = some none ∨ k.date_of_birth = none) →
      (PatientCRUD.applyUpdate p k (PatientCRUD.dobFix k) db.now).date_of_birth
        = p.date_of_birth) := by
  refine ⟨update_found_characterization db pid k p hp hemail, ⟨rfl, rfl, rfl⟩, ?_, ?_, ?_, ?_⟩
  · refine ⟨?_, ?_, ?_, ?_, ?_, ?_, ?_, ?_, ?_, ?_, ?_, ?_, ?_, ?_, ?_, ?_⟩ <;>
      first
        | exact applyReq_eq _ _
        | exact applyOpt_eq _ _
  · intro h
    simp [PatientCRUD.applyUpdate, applyReq, h]
  · intro s hs
    constructor
    · intro dt hdt
      simp [PatientCRUD.applyUpdate, applyOpt, PatientCRUD.dobFix, hs, hdt]
    · intro hdt
      simp [PatientCRUD.applyUpdate, applyOpt, PatientCRUD.dobFix, hs, hdt]
  · intro h
    rcases h with h | h <;> simp [PatientCRUD.applyUpdate, applyOpt, PatientCRUD.dobFix, h]

/-- Witness for C10: on a deactivated patient, supplying
`is_active=true` together with `phone=None` reactivates the row and
leaves the phone untouched (the `None`-valued field is skipped). -/
theorem C10_witness :
    (PatientCRUD.update c10wDb 1 c10wK).2 =
      .ok (some (PatientCRUD.applyUpdate c10wP c10wK (PatientCRUD.dobFix c10wK) c10wDb.now)) ∧
    (PatientCRUD.applyUpdate c10wP c10wK (PatientCRUD.dobFix c10wK) c10wDb.now).is_active
      = true ∧
    (PatientCRUD.applyUpdate c10wP c10wK (PatientCRUD.dobFix c10wK) c10wDb.now).phone
      = some "555" :=
  ⟨by
    rw [(C10_update_loop_semantics c10wDb 1 c10wK c10wP (by decide)
      (fun e he => by
        rw [show applyOpt c10wK.email c10wP.email = none from by decide] at he
        cases he)).1],
   by decide, by decide⟩

end MedAssist
